import Mathlib

set_option maxRecDepth 2048

/-!
Shallow embedding of the Guardian-Track controller firmware
(src/web-dashboard/app.js, Arduino section): the gate authorization
state machine, zone policy engine, alarm/feedback controller, RFID
bus arbitration (readCard / isCardPresent) and the main scheduler loop.

Conventions of the embedding:
* `millis()` is threaded explicitly as a `Nat` argument `now`; elapsed
  times are `now - t` over `Nat`, which coincides with the unsigned
  firmware arithmetic on every non-wrapping run (all theorems keep the
  clock inside that envelope via their timing hypotheses).
* The mutable globals of the firmware become fields of a `Ctrl` record,
  and every side effect observable at the boundary (serial events, servo
  commands, antenna toggles, reader polls, LCD notices, feedback bursts)
  is recorded in a trace of `Obs` values.
* Display-only bookkeeping (LCD default scrolling, blue-LED off timer)
  has no effect on any other state and is not modelled beyond the
  `Obs` entries emitted at the call sites.
* A negative student index is never dereferenced by the firmware on the
  paths modelled here; `setLocI` guards it to keep the function total.
-/

namespace GuardianTrack

/-- Person location enum (LOC_* defines). -/
inductive Loc
  | unknown
  | classroom
  | hostel
  | atGate
  | left
  | sneaked
deriving Repr, DecidableEq, BEq

/-- System mode (MODE_FREE / MODE_CLASS). -/
inductive Mode
  | mfree
  | mclass
deriving Repr, DecidableEq, BEq

/-- Gate state machine states (GATE_* defines). -/
inductive GateState
  | idle
  | waitingApproval
  | approved
  | sneakCountdown
  | alarm
deriving Repr, DecidableEq, BEq

/-- The three physical readers. -/
inductive Reader
  | gateR
  | classroomR
  | hostelR
deriving Repr, DecidableEq, BEq

/-- Zone argument of handleZoneTap (ZONE_CLASS / ZONE_HOSTEL). -/
inductive Zone
  | zClass
  | zHostel
deriving Repr, DecidableEq, BEq

/-- A 4-byte card UID (UID_LENGTH = 4). -/
structure Uid where
  b0 : Nat
  b1 : Nat
  b2 : Nat
  b3 : Nat
deriving Repr, DecidableEq, BEq

/-- What the physical environment presents to one readCard call:
no card in range (PICC_WakeupA fails), a card that wakes but fails
PICC_ReadCardSerial, or a successfully read card with its UID. -/
inductive CardResult
  | absent
  | failedRead
  | card (u : Uid)
deriving Repr, DecidableEq, BEq

/-- Observable effects of the controller, in emission order. -/
inductive Obs
  | poll (r : Reader)
  | antennaOn (r : Reader)
  | antennaOff (r : Reader)
  | piccHalt (r : Reader)
  | stopCrypto (r : Reader)
  | scanEvt (i : Int)
  | approvedEvt (i : Int)
  | sneakedEvt (i : Int)
  | zoneChange (i : Int) (zone : String)
  | alarmEvt (i : Int) (reason : String)
  | unknownCard (zone : String)
  | statusEvt (classroomN hostelN leftN sneakedN : Nat) (m : Mode)
  | modeChange (m : Mode)
  | studentInfo (i : Nat)
  | servo (angle : Nat)
  | flashBlue (ms : Nat)
  | flashRed (times : Nat)
  | beepShort (times : Nat)
  | lcdShow (line1 line2 : String)
  | alarmStarted
  | alarmStopped
deriving Repr, DecidableEq, BEq

/-- The mutable global state of the controller (state variables section). -/
structure Ctrl where
  systemMode : Mode
  gateState : GateState
  gateStudentIdx : Int
  gateEventTime : Nat
  sneakStartTime : Nat
  alarmStartTime : Nat
  lastAlarmToggle : Nat
  alarmLedState : Bool
  alarmActive : Bool
  locations : List Loc
  lastStatusBroadcast : Nat
deriving Repr, DecidableEq

/-- Environment input for one iteration of loop(): pending serial
command, what each reader would report if polled this tick, whether the
gate card answers a presence check, and the current millis clock. -/
structure CycleInput where
  cmd : Option String
  gateCard : CardResult
  classCard : CardResult
  hostelCard : CardResult
  gatePresent : Bool
  now : Nat
deriving Repr, DecidableEq

-- Timing constants (the #define block).
def GATE_TIMEOUT_MS : Nat := 20000
def SNEAK_WINDOW_MS : Nat := 5000
def GATE_OPEN_TIME_MS : Nat := 5000
def ALARM_DURATION_MS : Nat := 10000
def STATUS_INTERVAL_MS : Nat := 5000
def NUM_STUDENTS : Nat := 5

-- Hardcoded credential directory (students[] and adminUID).
def adminUID : Uid := ⟨0x03, 0x3E, 0x27, 0x29⟩

def uidOf : Nat → Uid
  | 0 => ⟨0x93, 0x85, 0xCB, 0x13⟩
  | 1 => ⟨0x93, 0xE5, 0x02, 0x29⟩
  | 2 => ⟨0x23, 0x9E, 0xC8, 0x13⟩
  | 3 => ⟨0x53, 0xC3, 0xB7, 0x13⟩
  | _ => ⟨0xB3, 0x21, 0xD3, 0x26⟩

/-- compareUID: exact byte-for-byte match over the 4 UID bytes. -/
def compareUID (u v : Uid) : Bool :=
  u.b0 == v.b0 && u.b1 == v.b1 && u.b2 == v.b2 && u.b3 == v.b3

/-- isAdmin: compare against the single administrative UID. -/
def isAdmin (u : Uid) : Bool := compareUID u adminUID

/-- findStudent: linear scan of the 5-entry student table, -1 if absent.
The source for-loop over NUM_STUDENTS = 5 is unrolled. -/
def findStudent (u : Uid) : Int :=
  if compareUID (uidOf 0) u then 0
  else if compareUID (uidOf 1) u then 1
  else if compareUID (uidOf 2) u then 2
  else if compareUID (uidOf 3) u then 3
  else if compareUID (uidOf 4) u then 4
  else -1

/-- countAt: number of students whose location equals loc. -/
def countAt (l : Loc) (locs : List Loc) : Nat :=
  locs.countP (fun x => x == l)

/-- Location registry read (students[i].location). -/
def getLoc (locs : List Loc) (i : Nat) : Loc :=
  locs.getD i Loc.unknown

/-- Location registry write (students[i].location = l). The firmware
only ever writes through a non-negative index; the guard keeps the
model total. -/
def setLocI (locs : List Loc) (i : Int) (l : Loc) : List Loc :=
  if 0 ≤ i then locs.set i.toNat l else locs

/-- sendStatus: one status event built from the current counts. -/
def sendStatusObs (s : Ctrl) : Obs :=
  Obs.statusEvt (countAt Loc.classroom s.locations) (countAt Loc.hostel s.locations)
    (countAt Loc.left s.locations) (countAt Loc.sneaked s.locations) s.systemMode

-- ============================================================
--  ALARM / FEEDBACK CONTROLLER
-- ============================================================

/-- startAlarm: engage the sustained alarm and record its start time. -/
def startAlarm (now : Nat) (s : Ctrl) : Ctrl × List Obs :=
  ({ s with alarmActive := true, alarmStartTime := now,
            lastAlarmToggle := now, alarmLedState := true },
   [Obs.alarmStarted])

/-- stopAlarm: drop the active flag and silence the outputs. -/
def stopAlarm (s : Ctrl) : Ctrl × List Obs :=
  ({ s with alarmActive := false }, [Obs.alarmStopped])

/-- updateAlarm: auto-stop strictly after ALARM_DURATION_MS, otherwise
toggle the blink phase every 300 ms. -/
def updateAlarm (now : Nat) (s : Ctrl) : Ctrl × List Obs :=
  if s.alarmActive = false then (s, [])
  else if now - s.alarmStartTime > ALARM_DURATION_MS then stopAlarm s
  else if now - s.lastAlarmToggle > 300 then
    ({ s with lastAlarmToggle := now, alarmLedState := !s.alarmLedState }, [])
  else (s, [])

-- ============================================================
--  RFID READING (bus arbiter)
-- ============================================================

/-- readCard: deselect all readers, energize the antenna of this reader,
wake the card, and on every exit path switch the antenna back off.
The three branches mirror the three return paths of the source. -/
def readCardM (r : Reader) (c : CardResult) : Option Uid × List Obs :=
  match c with
  | CardResult.absent =>
      (none, [Obs.poll r, Obs.antennaOn r, Obs.antennaOff r])
  | CardResult.failedRead =>
      (none, [Obs.poll r, Obs.antennaOn r, Obs.antennaOff r])
  | CardResult.card u =>
      (some u, [Obs.poll r, Obs.antennaOn r, Obs.piccHalt r, Obs.stopCrypto r,
                Obs.antennaOff r])

/-- isCardPresent: wake-only presence probe; both exit paths switch the
antenna back off. -/
def isCardPresentM (r : Reader) (present : Bool) : Bool × List Obs :=
  if present then
    (true, [Obs.poll r, Obs.antennaOn r, Obs.piccHalt r, Obs.antennaOff r])
  else
    (false, [Obs.poll r, Obs.antennaOn r, Obs.antennaOff r])

-- ============================================================
--  ZONE HANDLING
-- ============================================================

/-- handleZoneTap: set the location, emit zone_change, then either the
wrong-zone alarm burst (class mode, hostel zone) or normal feedback,
then broadcast status. -/
def handleZoneTap (i : Int) (z : Zone) (s : Ctrl) : Ctrl × List Obs :=
  let zoneName := if z = Zone.zClass then "classroom" else "hostel"
  let newLoc := if z = Zone.zClass then Loc.classroom else Loc.hostel
  let s1 := { s with locations := setLocI s.locations i newLoc }
  let head := [Obs.zoneChange i zoneName, Obs.lcdShow "student" zoneName]
  if s1.systemMode = Mode.mclass ∧ newLoc = Loc.hostel then
    (s1, head ++ [Obs.flashRed 3, Obs.beepShort 3, Obs.alarmEvt i "wrong_zone",
                  Obs.lcdShow "!! ALERT !!" "Wrong zone!", sendStatusObs s1])
  else
    (s1, head ++ [Obs.flashBlue 1000, Obs.beepShort 1, sendStatusObs s1])

-- ============================================================
--  GATE AUTHORIZATION STATE MACHINE
-- ============================================================

/-- handleGateDetection: ignored entirely unless the machine is Idle;
otherwise open a session for student i, mark them AtGate, emit scan. -/
def handleGateDetection (i : Int) (now : Nat) (s : Ctrl) : Ctrl × List Obs :=
  if s.gateState ≠ GateState.idle then (s, [])
  else
    let s1 := { s with gateStudentIdx := i, gateState := GateState.waitingApproval,
                       gateEventTime := now,
                       locations := setLocI s.locations i Loc.atGate }
    (s1, [Obs.lcdShow "EXIT REQUEST:" "student", Obs.scanEvt i,
          Obs.flashBlue 500, Obs.beepShort 1, sendStatusObs s1])

/-- gateApproved: session student leaves, servo opens, one approved
event, state becomes Approved with the open timer rebased. -/
def gateApproved (now : Nat) (s : Ctrl) : Ctrl × List Obs :=
  let s1 := { s with locations := setLocI s.locations s.gateStudentIdx Loc.left,
                     gateEventTime := now }
  ({ s1 with gateState := GateState.approved },
   [Obs.servo 90, Obs.flashBlue 2000, Obs.beepShort 2,
    Obs.lcdShow "APPROVED!" "student", Obs.approvedEvt s.gateStudentIdx,
    sendStatusObs s1])

/-- WaitingApproval, final step: abandon the session strictly after
GATE_TIMEOUT_MS and surface the expiry notice. -/
def updWaitTimeout (now : Nat) (s : Ctrl) : Ctrl × List Obs :=
  if now - s.gateEventTime > GATE_TIMEOUT_MS then
    ({ s with gateState := GateState.idle, gateStudentIdx := -1 },
     [Obs.lcdShow "Gate timeout" "Request expired"])
  else (s, [])

/-- WaitingApproval, third step: presence-check the gate card; if gone,
enter SneakCountdown (and still fall through to the timeout check, as
the source does). -/
def updWaitPresence (present : Bool) (now : Nat) (s : Ctrl) : Ctrl × List Obs :=
  let pr := isCardPresentM Reader.gateR present
  if pr.1 then
    let r := updWaitTimeout now s
    (r.1, pr.2 ++ r.2)
  else
    let s1 := { s with gateState := GateState.sneakCountdown, sneakStartTime := now }
    let r := updWaitTimeout now s1
    (r.1, pr.2 ++ [Obs.lcdShow "Card removed!" "Verifying..."] ++ r.2)

/-- WaitingApproval, second step: poll the Hostel reader for the admin
card; a student card there is routed to the zone policy engine. -/
def updWaitHostel (hc : CardResult) (present : Bool) (now : Nat) (s : Ctrl) :
    Ctrl × List Obs :=
  let rd := readCardM Reader.hostelR hc
  match rd.1 with
  | some u =>
      if isAdmin u then
        let r := gateApproved now s
        (r.1, rd.2 ++ r.2)
      else
        let idx := findStudent u
        let z := if 0 ≤ idx then handleZoneTap idx Zone.zHostel s else (s, [])
        let r := updWaitPresence present now z.1
        (r.1, rd.2 ++ z.2 ++ r.2)
  | none =>
      let r := updWaitPresence present now s
      (r.1, rd.2 ++ r.2)

/-- WaitingApproval, first step: poll the Classroom reader for the admin
card; a student card there is routed to the zone policy engine. -/
def updWaitClass (cc hc : CardResult) (present : Bool) (now : Nat) (s : Ctrl) :
    Ctrl × List Obs :=
  let rd := readCardM Reader.classroomR cc
  match rd.1 with
  | some u =>
      if isAdmin u then
        let r := gateApproved now s
        (r.1, rd.2 ++ r.2)
      else
        let idx := findStudent u
        let z := if 0 ≤ idx then handleZoneTap idx Zone.zClass s else (s, [])
        let r := updWaitHostel hc present now z.1
        (r.1, rd.2 ++ z.2 ++ r.2)
  | none =>
      let r := updWaitHostel hc present now s
      (r.1, rd.2 ++ r.2)

/-- SneakCountdown, final step: once the grace window has elapsed
(inclusive inequality in the source), mark the student Sneaked, emit
exactly one sneaked event, engage the alarm, move to Alarm. -/
def updSneakExpiry (now : Nat) (s : Ctrl) : Ctrl × List Obs :=
  if SNEAK_WINDOW_MS ≤ now - s.sneakStartTime then
    let s1 := { s with locations := setLocI s.locations s.gateStudentIdx Loc.sneaked }
    let r := startAlarm now s1
    ({ r.1 with gateState := GateState.alarm },
     [Obs.sneakedEvt s.gateStudentIdx, sendStatusObs s1,
      Obs.lcdShow "!! ALARM !!" "student"] ++ r.2)
  else (s, [])

/-- SneakCountdown, third step: the session card re-presented at the
Gate reader resumes WaitingApproval with a fresh approval timer. -/
def updSneakGate (gc : CardResult) (now : Nat) (s : Ctrl) : Ctrl × List Obs :=
  let rd := readCardM Reader.gateR gc
  match rd.1 with
  | some u =>
      if findStudent u = s.gateStudentIdx then
        ({ s with gateState := GateState.waitingApproval, gateEventTime := now },
         rd.2 ++ [Obs.lcdShow "EXIT REQUEST:" "student"])
      else
        let r := updSneakExpiry now s
        (r.1, rd.2 ++ r.2)
  | none =>
      let r := updSneakExpiry now s
      (r.1, rd.2 ++ r.2)

/-- SneakCountdown, second step: Hostel reader — session student means
a return to the hostel (no alarm), admin means late approval, any other
student is a normal zone tap. -/
def updSneakHostel (hc gc : CardResult) (now : Nat) (s : Ctrl) : Ctrl × List Obs :=
  let rd := readCardM Reader.hostelR hc
  match rd.1 with
  | some u =>
      let idx := findStudent u
      if idx = s.gateStudentIdx then
        let s1 := { s with locations := setLocI s.locations s.gateStudentIdx Loc.hostel }
        ({ s1 with gateState := GateState.idle, gateStudentIdx := -1 },
         rd.2 ++ [Obs.zoneChange s.gateStudentIdx "hostel", sendStatusObs s1,
                  Obs.lcdShow "Student returned" "to Hostel", Obs.beepShort 1])
      else if isAdmin u then
        let r := gateApproved now s
        (r.1, rd.2 ++ r.2)
      else
        let z := if 0 ≤ idx then handleZoneTap idx Zone.zHostel s else (s, [])
        let r := updSneakGate gc now z.1
        (r.1, rd.2 ++ z.2 ++ r.2)
  | none =>
      let r := updSneakGate gc now s
      (r.1, rd.2 ++ r.2)

/-- SneakCountdown, first step: Classroom reader — session student
means a return to the classroom (no alarm), admin means late approval,
any other student is a normal zone tap. -/
def updSneakClass (cc hc gc : CardResult) (now : Nat) (s : Ctrl) : Ctrl × List Obs :=
  let rd := readCardM Reader.classroomR cc
  match rd.1 with
  | some u =>
      let idx := findStudent u
      if idx = s.gateStudentIdx then
        let s1 := { s with locations := setLocI s.locations s.gateStudentIdx Loc.classroom }
        ({ s1 with gateState := GateState.idle, gateStudentIdx := -1 },
         rd.2 ++ [Obs.zoneChange s.gateStudentIdx "classroom", sendStatusObs s1,
                  Obs.lcdShow "Student returned" "to Classroom", Obs.beepShort 1])
      else if isAdmin u then
        let r := gateApproved now s
        (r.1, rd.2 ++ r.2)
      else
        let z := if 0 ≤ idx then handleZoneTap idx Zone.zClass s else (s, [])
        let r := updSneakHostel hc gc now z.1
        (r.1, rd.2 ++ z.2 ++ r.2)
  | none =>
      let r := updSneakHostel hc gc now s
      (r.1, rd.2 ++ r.2)

/-- Alarm state: short-circuit poll of Classroom then Hostel for an
admin acknowledge; otherwise return to Idle once the alarm controller
has auto-stopped. -/
def updAlarmAuto (s : Ctrl) (acc : List Obs) : Ctrl × List Obs :=
  if s.alarmActive = false then
    ({ s with gateState := GateState.idle, gateStudentIdx := -1 }, acc)
  else (s, acc)

def updAlarmClear (s : Ctrl) (acc : List Obs) : Ctrl × List Obs :=
  let r := stopAlarm s
  ({ r.1 with gateState := GateState.idle, gateStudentIdx := -1 },
   acc ++ r.2 ++ [Obs.lcdShow "Alarm cleared" "by Admin"])

def updAlarmCase (cc hc : CardResult) (s : Ctrl) : Ctrl × List Obs :=
  let rd := readCardM Reader.classroomR cc
  match rd.1 with
  | some u =>
      if isAdmin u then updAlarmClear s rd.2
      else updAlarmAuto s rd.2
  | none =>
      let rd2 := readCardM Reader.hostelR hc
      match rd2.1 with
      | some u =>
          if isAdmin u then updAlarmClear s (rd.2 ++ rd2.2)
          else updAlarmAuto s (rd.2 ++ rd2.2)
      | none => updAlarmAuto s (rd.2 ++ rd2.2)

/-- Approved state: after the fixed open duration, close the servo and
return to Idle. -/
def updApprovedCase (now : Nat) (s : Ctrl) : Ctrl × List Obs :=
  if GATE_OPEN_TIME_MS ≤ now - s.gateEventTime then
    ({ s with gateState := GateState.idle, gateStudentIdx := -1 },
     [Obs.servo 0, Obs.lcdShow "Gate closed" "System ready", sendStatusObs s])
  else (s, [])

/-- updateGateStateMachine: dispatch on the current state. -/
def updateGateStateMachine (inp : CycleInput) (s : Ctrl) : Ctrl × List Obs :=
  match s.gateState with
  | GateState.idle => (s, [])
  | GateState.waitingApproval =>
      updWaitClass inp.classCard inp.hostelCard inp.gatePresent inp.now s
  | GateState.sneakCountdown =>
      updSneakClass inp.classCard inp.hostelCard inp.gateCard inp.now s
  | GateState.alarm => updAlarmCase inp.classCard inp.hostelCard s
  | GateState.approved => updApprovedCase inp.now s

-- ============================================================
--  SERIAL COMMANDS AND MAIN LOOP
-- ============================================================

/-- processSerialCommand: MODE:CLASS, MODE:FREE, SYNC; anything else is
silently ignored. -/
def processSerialCommand (oc : Option String) (s : Ctrl) : Ctrl × List Obs :=
  match oc with
  | none => (s, [])
  | some c =>
      if c = "MODE:CLASS" then
        ({ s with systemMode := Mode.mclass },
         [Obs.modeChange Mode.mclass, Obs.lcdShow "Mode: CLASS" "Time enforced!",
          Obs.beepShort 1])
      else if c = "MODE:FREE" then
        ({ s with systemMode := Mode.mfree },
         [Obs.modeChange Mode.mfree, Obs.lcdShow "Mode: FREE" "No restrictions",
          Obs.beepShort 1])
      else if c = "SYNC" then
        (s, [Obs.studentInfo 0, Obs.studentInfo 1, Obs.studentInfo 2,
             Obs.studentInfo 3, Obs.studentInfo 4, sendStatusObs s])
      else (s, [])

/-- Gate reader poll of loop(): only while the gate machine is Idle. -/
def pollGatePhase (inp : CycleInput) (s : Ctrl) : Ctrl × List Obs :=
  if s.gateState = GateState.idle then
    let rd := readCardM Reader.gateR inp.gateCard
    match rd.1 with
    | some u =>
        if isAdmin u then
          (s, rd.2 ++ [Obs.lcdShow "Admin Card" "Recognized", Obs.flashBlue 500,
                       Obs.beepShort 1])
        else
          let idx := findStudent u
          if 0 ≤ idx then
            let r := handleGateDetection idx inp.now s
            (r.1, rd.2 ++ r.2)
          else
            (s, rd.2 ++ [Obs.lcdShow "UNKNOWN CARD!" "Access Denied",
                         Obs.flashRed 3, Obs.beepShort 3, Obs.unknownCard "gate"])
    | none => (s, rd.2)
  else (s, [])

/-- Classroom and Hostel reader polls of loop(): only while the gate
machine is Idle or in Alarm; admin taps here are ignored. -/
def pollZoneHostel (inp : CycleInput) (s : Ctrl) (acc : List Obs) : Ctrl × List Obs :=
  let rd := readCardM Reader.hostelR inp.hostelCard
  match rd.1 with
  | some u =>
      if isAdmin u then (s, acc ++ rd.2)
      else
        let idx := findStudent u
        if 0 ≤ idx then
          let z := handleZoneTap idx Zone.zHostel s
          (z.1, acc ++ rd.2 ++ z.2)
        else
          (s, acc ++ rd.2 ++ [Obs.lcdShow "UNKNOWN CARD!" "Hostel",
                              Obs.flashRed 3, Obs.beepShort 3,
                              Obs.unknownCard "hostel"])
  | none => (s, acc ++ rd.2)

def pollZonePhase (inp : CycleInput) (s : Ctrl) : Ctrl × List Obs :=
  if s.gateState = GateState.idle ∨ s.gateState = GateState.alarm then
    let rd := readCardM Reader.classroomR inp.classCard
    match rd.1 with
    | some u =>
        if isAdmin u then pollZoneHostel inp s rd.2
        else
          let idx := findStudent u
          if 0 ≤ idx then
            let z := handleZoneTap idx Zone.zClass s
            pollZoneHostel inp z.1 (rd.2 ++ z.2)
          else
            pollZoneHostel inp s
              (rd.2 ++ [Obs.lcdShow "UNKNOWN CARD!" "Classroom", Obs.flashRed 3,
                        Obs.beepShort 3, Obs.unknownCard "classroom"])
    | none => pollZoneHostel inp s rd.2
  else (s, [])

/-- Periodic status broadcast at the end of loop(). -/
def periodicStatus (now : Nat) (s : Ctrl) : Ctrl × List Obs :=
  if now - s.lastStatusBroadcast > STATUS_INTERVAL_MS then
    ({ s with lastStatusBroadcast := now }, [sendStatusObs s])
  else (s, [])

/-- One full iteration of loop(). -/
def cycle (inp : CycleInput) (s : Ctrl) : Ctrl × List Obs :=
  let p1 := processSerialCommand inp.cmd s
  let p2 := updateGateStateMachine inp p1.1
  let p3 := updateAlarm inp.now p2.1
  let p4 := pollGatePhase inp p3.1
  let p5 := pollZonePhase inp p4.1
  let p6 := periodicStatus inp.now p5.1
  (p6.1, p1.2 ++ p2.2 ++ p3.2 ++ p4.2 ++ p5.2 ++ p6.2)

/-- Run a list of scheduler iterations. -/
def run (s : Ctrl) : List CycleInput → Ctrl × List Obs
  | [] => (s, [])
  | inp :: rest =>
      let c := cycle inp s
      let r := run c.1 rest
      (r.1, c.2 ++ r.2)

-- ============================================================
--  TRACE OBSERVERS
-- ============================================================

def isSneakedObs : Obs → Bool
  | Obs.sneakedEvt _ => true
  | _ => false

def isApprovedObs : Obs → Bool
  | Obs.approvedEvt _ => true
  | _ => false

def isUnknownCardObs : Obs → Bool
  | Obs.unknownCard _ => true
  | _ => false

def isZoneChangeObs : Obs → Bool
  | Obs.zoneChange _ _ => true
  | _ => false

def isWrongZoneAlarmObs : Obs → Bool
  | Obs.alarmEvt _ r => r == "wrong_zone"
  | _ => false

def isStatusObs : Obs → Bool
  | Obs.statusEvt _ _ _ _ _ => true
  | _ => false

def isExpiryNoticeObs : Obs → Bool
  | Obs.lcdShow l1 l2 => l1 == "Gate timeout" && l2 == "Request expired"
  | _ => false

def isAlarmStartedObs : Obs → Bool
  | Obs.alarmStarted => true
  | _ => false

def countSneaked (l : List Obs) : Nat := l.countP isSneakedObs
def countApproved (l : List Obs) : Nat := l.countP isApprovedObs
def countUnknownCard (l : List Obs) : Nat := l.countP isUnknownCardObs
def countZoneChange (l : List Obs) : Nat := l.countP isZoneChangeObs
def countWrongZoneAlarm (l : List Obs) : Nat := l.countP isWrongZoneAlarmObs
def countStatus (l : List Obs) : Nat := l.countP isStatusObs
def countExpiryNotice (l : List Obs) : Nat := l.countP isExpiryNoticeObs
def countAlarmStarted (l : List Obs) : Nat := l.countP isAlarmStartedObs

/-- The sequence of reader polls in a trace. -/
def pollsOf (l : List Obs) : List Reader :=
  l.filterMap fun o => match o with
    | Obs.poll r => some r
    | _ => none

/-- The sequence of servo commands in a trace. -/
def servoCmds (l : List Obs) : List Nat :=
  l.filterMap fun o => match o with
    | Obs.servo a => some a
    | _ => none

/-- The sequence of antenna on/off switches in a trace
(true = energized, false = switched off). -/
def antennaTrace (l : List Obs) : List (Bool × Reader) :=
  l.filterMap fun o => match o with
    | Obs.antennaOn r => some (true, r)
    | Obs.antennaOff r => some (false, r)
    | _ => none

end GuardianTrack

namespace GuardianTrack

-- ============================================================
--  HELPER LEMMAS
-- ============================================================

/-- The five student credentials resolve to their own registry index. -/
lemma findStudent_uidOf (i : Nat) (hi : i < 5) :
    findStudent (uidOf i) = Int.ofNat i := by
  interval_cases i <;> decide

/-- No student credential is the administrative credential. -/
lemma isAdmin_uidOf (i : Nat) (hi : i < 5) : isAdmin (uidOf i) = false := by
  interval_cases i <;> decide

/-- The administrative credential is recognized as admin. -/
lemma isAdmin_adminUID : isAdmin adminUID = true := by decide

/-- The administrative credential maps to no student. -/
lemma findStudent_adminUID : findStudent adminUID = -1 := by decide

/-- Decomposition of one scheduler cycle into its six phases: supplying
the result of each phase yields the result of the whole cycle. -/
lemma cycle_spec (inp : CycleInput) (s s1 s2 s3 s4 s5 s6 : Ctrl)
    (o1 o2 o3 o4 o5 o6 : List Obs)
    (h1 : processSerialCommand inp.cmd s = (s1, o1))
    (h2 : updateGateStateMachine inp s1 = (s2, o2))
    (h3 : updateAlarm inp.now s2 = (s3, o3))
    (h4 : pollGatePhase inp s3 = (s4, o4))
    (h5 : pollZonePhase inp s4 = (s5, o5))
    (h6 : periodicStatus inp.now s5 = (s6, o6)) :
    cycle inp s = (s6, o1 ++ o2 ++ o3 ++ o4 ++ o5 ++ o6) := by
  simp [cycle, h1, h2, h3, h4, h5, h6]

/-- The periodic status phase only rewrites the broadcast timestamp. -/
lemma periodicStatus_eq (n : Nat) (s : Ctrl) :
    periodicStatus n s =
      ({ s with lastStatusBroadcast := (periodicStatus n s).1.lastStatusBroadcast },
       (periodicStatus n s).2) := by
  simp only [periodicStatus]
  split <;> simp

/-- The periodic status phase emits status events only. -/
lemma countP_periodicStatus (p : Obs → Bool)
    (h : ∀ a b c d m, p (Obs.statusEvt a b c d m) = false) (n : Nat) (s : Ctrl) :
    (periodicStatus n s).2.countP p = 0 := by
  simp only [periodicStatus]
  split <;> simp [sendStatusObs, h]

/-- No reader poll, servo command or antenna switch comes from the
periodic status phase. -/
lemma filterMap_periodicStatus {α : Type} (f : Obs → Option α)
    (h : ∀ a b c d m, f (Obs.statusEvt a b c d m) = none) (n : Nat) (s : Ctrl) :
    (periodicStatus n s).2.filterMap f = [] := by
  simp only [periodicStatus]
  split <;> simp [sendStatusObs, h]

/-- Unfolding of a three-cycle run. -/
lemma run3_eta (s : Ctrl) (a b c : CycleInput) :
    run s [a, b, c] =
      ((cycle c (cycle b (cycle a s).1).1).1,
       (cycle a s).2 ++ ((cycle b (cycle a s).1).2 ++
         ((cycle c (cycle b (cycle a s).1).1).2 ++ []))) := by
  simp only [run]

/-- Reading back a just-written registry slot. -/
lemma getLoc_set_self : ∀ (l : List Loc) (i : Nat) (a : Loc), i < l.length →
    getLoc (l.set i a) i = a
  | [], i, _, h => absurd h (by simp)
  | _ :: _, 0, _, _ => rfl
  | _ :: xs, i + 1, a, h => getLoc_set_self xs i a (by simpa using h)

end GuardianTrack

namespace GuardianTrack

-- ============================================================
--  C5: antenna discipline of the bus arbiter
-- ============================================================

/-- C5: for every poll of a reader, both for the read-credential
operation (readCard) and for the still-present check (isCardPresent),
and on every exit path of that poll, including the no-credential and
failed-read error paths, the sensing element is energized exactly once
and switched off again before the operation returns. -/
theorem C5_antenna_always_off (r : Reader) (c : CardResult) (b : Bool) :
    antennaTrace (readCardM r c).2 = [(true, r), (false, r)] ∧
    antennaTrace (isCardPresentM r b).2 = [(true, r), (false, r)] := by
  cases c <;> cases b <;>
    simp [readCardM, isCardPresentM, antennaTrace, List.filterMap]

-- ============================================================
--  C7: wrong-zone policy violation during class time
-- ============================================================

/-- C7: a known non-administrative student tapping the Hostel reader
while SystemMode is Class gets location Hostel; the trace of the tap
is, in order: one zone_change event, the one-shot feedback burst, one
alarm event with reason wrong_zone, and a status broadcast; the timed
alarm controller is not engaged. -/
theorem C7_wrong_zone_tap (s : Ctrl) (i : Nat)
    (hm : s.systemMode = Mode.mclass) (hi : i < 5)
    (hl : s.locations.length = 5) :
    getLoc (handleZoneTap (Int.ofNat i) Zone.zHostel s).1.locations i = Loc.hostel ∧
    (handleZoneTap (Int.ofNat i) Zone.zHostel s).2 =
      [Obs.zoneChange (Int.ofNat i) "hostel", Obs.lcdShow "student" "hostel",
       Obs.flashRed 3, Obs.beepShort 3, Obs.alarmEvt (Int.ofNat i) "wrong_zone",
       Obs.lcdShow "!! ALERT !!" "Wrong zone!",
       sendStatusObs (handleZoneTap (Int.ofNat i) Zone.zHostel s).1] ∧
    countZoneChange (handleZoneTap (Int.ofNat i) Zone.zHostel s).2 = 1 ∧
    countWrongZoneAlarm (handleZoneTap (Int.ofNat i) Zone.zHostel s).2 = 1 ∧
    countStatus (handleZoneTap (Int.ofNat i) Zone.zHostel s).2 = 1 ∧
    (handleZoneTap (Int.ofNat i) Zone.zHostel s).1.alarmActive = s.alarmActive ∧
    countAlarmStarted (handleZoneTap (Int.ofNat i) Zone.zHostel s).2 = 0 := by
  refine ⟨?_, ?_, ?_, ?_, ?_, ?_, ?_⟩ <;>
    simp [handleZoneTap, hm, setLocI, countZoneChange, sendStatusObs,
      countWrongZoneAlarm, countStatus, countAlarmStarted,
      isZoneChangeObs, isWrongZoneAlarmObs, isStatusObs, isAlarmStartedObs,
      List.countP_cons, getLoc_set_self _ _ _ (hl ▸ hi)]

/-- Witness for C7 at student 0 in class mode. -/
def sC7w : Ctrl :=
  ⟨Mode.mclass, GateState.idle, -1, 0, 0, 0, 0, false, false,
   [Loc.classroom, Loc.unknown, Loc.unknown, Loc.unknown, Loc.unknown], 0⟩

theorem C7_wrong_zone_tap_witness :
    getLoc (handleZoneTap (Int.ofNat 0) Zone.zHostel sC7w).1.locations 0 = Loc.hostel ∧
    (handleZoneTap (Int.ofNat 0) Zone.zHostel sC7w).2 =
      [Obs.zoneChange (Int.ofNat 0) "hostel", Obs.lcdShow "student" "hostel",
       Obs.flashRed 3, Obs.beepShort 3, Obs.alarmEvt (Int.ofNat 0) "wrong_zone",
       Obs.lcdShow "!! ALERT !!" "Wrong zone!",
       sendStatusObs (handleZoneTap (Int.ofNat 0) Zone.zHostel sC7w).1] ∧
    countZoneChange (handleZoneTap (Int.ofNat 0) Zone.zHostel sC7w).2 = 1 ∧
    countWrongZoneAlarm (handleZoneTap (Int.ofNat 0) Zone.zHostel sC7w).2 = 1 ∧
    countStatus (handleZoneTap (Int.ofNat 0) Zone.zHostel sC7w).2 = 1 ∧
    (handleZoneTap (Int.ofNat 0) Zone.zHostel sC7w).1.alarmActive = sC7w.alarmActive ∧
    countAlarmStarted (handleZoneTap (Int.ofNat 0) Zone.zHostel sC7w).2 = 0 :=
  C7_wrong_zone_tap sC7w 0 rfl (by decide) (by decide)

-- ============================================================
--  C6: poll ordering (corrected)
-- ============================================================

/-- A concrete reachable-shaped state waiting for gate approval. -/
def sWaitC6 : Ctrl :=
  ⟨Mode.mfree, GateState.waitingApproval, 0, 0, 0, 0, 0, false, false,
   [Loc.atGate, Loc.unknown, Loc.unknown, Loc.unknown, Loc.unknown], 0⟩

def inpC6 : CycleInput :=
  ⟨none, CardResult.absent, CardResult.absent, CardResult.absent, true, 1000⟩

/-- C6 counterexample: in a scheduling cycle entered in WaitingApproval,
the readers are polled Classroom, Hostel, Gate — the Gate reader is not
polled first, refuting the claimed fixed order for every state. -/
theorem C6_counterexample :
    pollsOf (cycle inpC6 sWaitC6).2 =
      [Reader.classroomR, Reader.hostelR, Reader.gateR] ∧
    pollsOf (cycle inpC6 sWaitC6).2 ≠
      [Reader.gateR, Reader.classroomR, Reader.hostelR] := by
  decide

/-- C6 amended: while the gate machine is Idle, a scheduling cycle polls
the readers in the fixed order Gate, Classroom, Hostel; but while a gate
session is in WaitingApproval the cycle polls Classroom, then Hostel,
then the Gate reader, so a Gate event is only guaranteed to be observed
first while the machine is Idle. -/
theorem C6_poll_order (mo : Mode) (gi : Int) (ge ts at0 lt : Nat) (ls : Bool)
    (locs : List Loc) (lsb tNow : Nat)
    (ht : tNow - ge ≤ GATE_TIMEOUT_MS) :
    pollsOf (cycle ⟨none, CardResult.absent, CardResult.absent, CardResult.absent,
        true, tNow⟩
        ⟨mo, GateState.idle, gi, ge, ts, at0, lt, ls, false, locs, lsb⟩).2 =
      [Reader.gateR, Reader.classroomR, Reader.hostelR] ∧
    pollsOf (cycle ⟨none, CardResult.absent, CardResult.absent, CardResult.absent,
        true, tNow⟩
        ⟨mo, GateState.waitingApproval, gi, ge, ts, at0, lt, ls, false, locs, lsb⟩).2 =
      [Reader.classroomR, Reader.hostelR, Reader.gateR] := by
  have ht' : ¬ (GATE_TIMEOUT_MS < tNow - ge) := not_lt.mpr ht
  constructor <;>
    simp [cycle, processSerialCommand, updateGateStateMachine, updateAlarm,
      pollGatePhase, pollZonePhase, pollZoneHostel, periodicStatus, readCardM,
      isCardPresentM, updWaitClass, updWaitHostel, updWaitPresence,
      updWaitTimeout, ht', pollsOf, sendStatusObs, List.filterMap_append,
      List.filterMap, apply_ite]

/-- Witness for the amended C6 at a concrete idle and waiting state. -/
theorem C6_poll_order_witness :
    pollsOf (cycle ⟨none, CardResult.absent, CardResult.absent, CardResult.absent,
        true, 1000⟩
        ⟨Mode.mfree, GateState.idle, 0, 0, 0, 0, 0, false, false, [], 0⟩).2 =
      [Reader.gateR, Reader.classroomR, Reader.hostelR] ∧
    pollsOf (cycle ⟨none, CardResult.absent, CardResult.absent, CardResult.absent,
        true, 1000⟩
        ⟨Mode.mfree, GateState.waitingApproval, 0, 0, 0, 0, 0, false, false, [], 0⟩).2 =
      [Reader.classroomR, Reader.hostelR, Reader.gateR] :=
  C6_poll_order Mode.mfree 0 0 0 0 0 false [] 0 1000 (by decide)

end GuardianTrack

namespace GuardianTrack

-- ============================================================
--  C4: at most one gate session
-- ============================================================

/-- C4: while the gate machine is outside Idle, a further gate
detection is a strict no-op (no second session, the session student is
untouched); the scheduler polls the Gate reader for new detections only
while Idle; and the zone-tap path of the scheduler never touches the
gate session fields. -/
theorem C4_single_session (s : Ctrl) (i : Int) (now : Nat) (inp : CycleInput)
    (h : s.gateState ≠ GateState.idle) :
    handleGateDetection i now s = (s, []) ∧
    pollGatePhase inp s = (s, []) ∧
    (pollZonePhase inp s).1.gateState = s.gateState ∧
    (pollZonePhase inp s).1.gateStudentIdx = s.gateStudentIdx := by
  refine ⟨by simp [handleGateDetection, h], by simp [pollGatePhase, h], ?_, ?_⟩ <;>
  · unfold pollZonePhase pollZoneHostel
    cases hc : inp.classCard <;> cases hh : inp.hostelCard <;>
      simp [readCardM, handleZoneTap] <;> split_ifs <;> simp [handleZoneTap]

/-- Witness for C4 in a concrete WaitingApproval state. -/
def sC4w : Ctrl :=
  ⟨Mode.mfree, GateState.waitingApproval, 2, 0, 0, 0, 0, false, false,
   [Loc.unknown, Loc.unknown, Loc.atGate, Loc.unknown, Loc.unknown], 0⟩

def inpC4w : CycleInput :=
  ⟨none, CardResult.card (uidOf 1), CardResult.card (uidOf 0),
   CardResult.absent, true, 500⟩

theorem C4_single_session_witness :
    handleGateDetection 1 500 sC4w = (sC4w, []) ∧
    pollGatePhase inpC4w sC4w = (sC4w, []) ∧
    (pollZonePhase inpC4w sC4w).1.gateState = sC4w.gateState ∧
    (pollZonePhase inpC4w sC4w).1.gateStudentIdx = sC4w.gateStudentIdx :=
  C4_single_session sC4w 1 500 inpC4w (by decide)

-- ============================================================
--  C3: grace-window re-presentation at the gate
-- ============================================================

/-- C3: during SneakCountdown, if the credential of the session student is
re-presented at the Gate reader within the grace window, with nothing
at the other readers, the machine returns to WaitingApproval with a
fresh approval timer, the session student is kept, and no sneaked event
is emitted. -/
theorem C3_grace_represent (mo : Mode) (i : Nat) (ge ts at0 lt : Nat)
    (ls : Bool) (locs : List Loc) (lsb tNow : Nat)
    (hi : i < 5) (hw : tNow - ts < SNEAK_WINDOW_MS) :
    (cycle ⟨none, CardResult.card (uidOf i), CardResult.absent,
        CardResult.absent, false, tNow⟩
      ⟨mo, GateState.sneakCountdown, Int.ofNat i, ge, ts, at0, lt, ls, false,
       locs, lsb⟩).1.gateState = GateState.waitingApproval ∧
    (cycle ⟨none, CardResult.card (uidOf i), CardResult.absent,
        CardResult.absent, false, tNow⟩
      ⟨mo, GateState.sneakCountdown, Int.ofNat i, ge, ts, at0, lt, ls, false,
       locs, lsb⟩).1.gateStudentIdx = Int.ofNat i ∧
    (cycle ⟨none, CardResult.card (uidOf i), CardResult.absent,
        CardResult.absent, false, tNow⟩
      ⟨mo, GateState.sneakCountdown, Int.ofNat i, ge, ts, at0, lt, ls, false,
       locs, lsb⟩).1.gateEventTime = tNow ∧
    countSneaked (cycle ⟨none, CardResult.card (uidOf i), CardResult.absent,
        CardResult.absent, false, tNow⟩
      ⟨mo, GateState.sneakCountdown, Int.ofNat i, ge, ts, at0, lt, ls, false,
       locs, lsb⟩).2 = 0 := by
  have h1 : processSerialCommand none
      ⟨mo, GateState.sneakCountdown, Int.ofNat i, ge, ts, at0, lt, ls, false,
       locs, lsb⟩ =
      (⟨mo, GateState.sneakCountdown, Int.ofNat i, ge, ts, at0, lt, ls, false,
        locs, lsb⟩, []) := rfl
  have h2 : updateGateStateMachine
      ⟨none, CardResult.card (uidOf i), CardResult.absent, CardResult.absent,
       false, tNow⟩
      ⟨mo, GateState.sneakCountdown, Int.ofNat i, ge, ts, at0, lt, ls, false,
       locs, lsb⟩ =
      (⟨mo, GateState.waitingApproval, Int.ofNat i, tNow, ts, at0, lt, ls,
        false, locs, lsb⟩,
       [Obs.poll Reader.classroomR, Obs.antennaOn Reader.classroomR,
        Obs.antennaOff Reader.classroomR, Obs.poll Reader.hostelR,
        Obs.antennaOn Reader.hostelR, Obs.antennaOff Reader.hostelR,
        Obs.poll Reader.gateR, Obs.antennaOn Reader.gateR,
        Obs.piccHalt Reader.gateR, Obs.stopCrypto Reader.gateR,
        Obs.antennaOff Reader.gateR,
        Obs.lcdShow "EXIT REQUEST:" "student"]) := by
    simp [updateGateStateMachine, updSneakClass, updSneakHostel, updSneakGate,
      readCardM, findStudent_uidOf i hi]
  have h3 : updateAlarm tNow
      ⟨mo, GateState.waitingApproval, Int.ofNat i, tNow, ts, at0, lt, ls,
       false, locs, lsb⟩ =
      (⟨mo, GateState.waitingApproval, Int.ofNat i, tNow, ts, at0, lt, ls,
        false, locs, lsb⟩, []) := by
    simp [updateAlarm]
  have h4 : pollGatePhase
      ⟨none, CardResult.card (uidOf i), CardResult.absent, CardResult.absent,
       false, tNow⟩
      ⟨mo, GateState.waitingApproval, Int.ofNat i, tNow, ts, at0, lt, ls,
       false, locs, lsb⟩ =
      (⟨mo, GateState.waitingApproval, Int.ofNat i, tNow, ts, at0, lt, ls,
        false, locs, lsb⟩, []) := by
    simp [pollGatePhase]
  have h5 : pollZonePhase
      ⟨none, CardResult.card (uidOf i), CardResult.absent, CardResult.absent,
       false, tNow⟩
      ⟨mo, GateState.waitingApproval, Int.ofNat i, tNow, ts, at0, lt, ls,
       false, locs, lsb⟩ =
      (⟨mo, GateState.waitingApproval, Int.ofNat i, tNow, ts, at0, lt, ls,
        false, locs, lsb⟩, []) := by
    simp [pollZonePhase]
  have hc := cycle_spec
    ⟨none, CardResult.card (uidOf i), CardResult.absent, CardResult.absent,
     false, tNow⟩
    ⟨mo, GateState.sneakCountdown, Int.ofNat i, ge, ts, at0, lt, ls, false,
     locs, lsb⟩ _ _ _ _ _ _ _ _ _ _ _ _ h1 h2 h3 h4 h5
    (periodicStatus_eq tNow _)
  refine ⟨?_, ?_, ?_, ?_⟩ <;> rw [hc] <;>
    simp [countSneaked, isSneakedObs, List.countP_append,
      countP_periodicStatus isSneakedObs (fun _ _ _ _ _ => rfl)]

/-- Witness for C3 with student 3 re-presenting 2 s into the window. -/
theorem C3_grace_represent_witness :
    (cycle ⟨none, CardResult.card (uidOf 3), CardResult.absent,
        CardResult.absent, false, 3000⟩
      ⟨Mode.mfree, GateState.sneakCountdown, Int.ofNat 3, 900, 1000, 0, 0,
       false, false, [Loc.unknown, Loc.unknown, Loc.unknown, Loc.atGate,
       Loc.unknown], 0⟩).1.gateState = GateState.waitingApproval ∧
    (cycle ⟨none, CardResult.card (uidOf 3), CardResult.absent,
        CardResult.absent, false, 3000⟩
      ⟨Mode.mfree, GateState.sneakCountdown, Int.ofNat 3, 900, 1000, 0, 0,
       false, false, [Loc.unknown, Loc.unknown, Loc.unknown, Loc.atGate,
       Loc.unknown], 0⟩).1.gateStudentIdx = Int.ofNat 3 ∧
    (cycle ⟨none, CardResult.card (uidOf 3), CardResult.absent,
        CardResult.absent, false, 3000⟩
      ⟨Mode.mfree, GateState.sneakCountdown, Int.ofNat 3, 900, 1000, 0, 0,
       false, false, [Loc.unknown, Loc.unknown, Loc.unknown, Loc.atGate,
       Loc.unknown], 0⟩).1.gateEventTime = 3000 ∧
    countSneaked (cycle ⟨none, CardResult.card (uidOf 3), CardResult.absent,
        CardResult.absent, false, 3000⟩
      ⟨Mode.mfree, GateState.sneakCountdown, Int.ofNat 3, 900, 1000, 0, 0,
       false, false, [Loc.unknown, Loc.unknown, Loc.unknown, Loc.atGate,
       Loc.unknown], 0⟩).2 = 0 :=
  C3_grace_represent Mode.mfree 3 900 1000 0 0 false
    [Loc.unknown, Loc.unknown, Loc.unknown, Loc.atGate, Loc.unknown] 0 3000
    (by decide) (by decide)

-- ============================================================
--  C8: unknown credential at the gate while Idle
-- ============================================================

/-- C8: a credential at the Gate reader while Idle that is neither a
student credential nor the administrative one yields exactly one
unknown_card event, creates no session, and leaves every location and
the machine state unchanged. -/
theorem C8_unknown_at_gate (mo : Mode) (gi : Int) (ge ts at0 lt : Nat)
    (ls : Bool) (locs : List Loc) (lsb tNow : Nat) (u : Uid)
    (hu : findStudent u = -1) (ha : isAdmin u = false) :
    countUnknownCard (cycle ⟨none, CardResult.card u, CardResult.absent,
        CardResult.absent, true, tNow⟩
      ⟨mo, GateState.idle, gi, ge, ts, at0, lt, ls, false, locs, lsb⟩).2 = 1 ∧
    (cycle ⟨none, CardResult.card u, CardResult.absent,
        CardResult.absent, true, tNow⟩
      ⟨mo, GateState.idle, gi, ge, ts, at0, lt, ls, false, locs, lsb⟩).1.gateState
      = GateState.idle ∧
    (cycle ⟨none, CardResult.card u, CardResult.absent,
        CardResult.absent, true, tNow⟩
      ⟨mo, GateState.idle, gi, ge, ts, at0, lt, ls, false,
       locs, lsb⟩).1.gateStudentIdx = gi ∧
    (cycle ⟨none, CardResult.card u, CardResult.absent,
        CardResult.absent, true, tNow⟩
      ⟨mo, GateState.idle, gi, ge, ts, at0, lt, ls, false, locs, lsb⟩).1.locations
      = locs := by
  have h1 : processSerialCommand none
      ⟨mo, GateState.idle, gi, ge, ts, at0, lt, ls, false, locs, lsb⟩ =
      (⟨mo, GateState.idle, gi, ge, ts, at0, lt, ls, false, locs, lsb⟩, []) :=
    rfl
  have h2 : updateGateStateMachine
      ⟨none, CardResult.card u, CardResult.absent, CardResult.absent, true,
       tNow⟩
      ⟨mo, GateState.idle, gi, ge, ts, at0, lt, ls, false, locs, lsb⟩ =
      (⟨mo, GateState.idle, gi, ge, ts, at0, lt, ls, false, locs, lsb⟩, []) :=
    rfl
  have h3 : updateAlarm tNow
      ⟨mo, GateState.idle, gi, ge, ts, at0, lt, ls, false, locs, lsb⟩ =
      (⟨mo, GateState.idle, gi, ge, ts, at0, lt, ls, false, locs, lsb⟩, []) := by
    simp [updateAlarm]
  have h4 : pollGatePhase
      ⟨none, CardResult.card u, CardResult.absent, CardResult.absent, true,
       tNow⟩
      ⟨mo, GateState.idle, gi, ge, ts, at0, lt, ls, false, locs, lsb⟩ =
      (⟨mo, GateState.idle, gi, ge, ts, at0, lt, ls, false, locs, lsb⟩,
       [Obs.poll Reader.gateR, Obs.antennaOn Reader.gateR,
        Obs.piccHalt Reader.gateR, Obs.stopCrypto Reader.gateR,
        Obs.antennaOff Reader.gateR,
        Obs.lcdShow "UNKNOWN CARD!" "Access Denied", Obs.flashRed 3,
        Obs.beepShort 3, Obs.unknownCard "gate"]) := by
    simp [pollGatePhase, readCardM, hu, ha]
  have h5 : pollZonePhase
      ⟨none, CardResult.card u, CardResult.absent, CardResult.absent, true,
       tNow⟩
      ⟨mo, GateState.idle, gi, ge, ts, at0, lt, ls, false, locs, lsb⟩ =
      (⟨mo, GateState.idle, gi, ge, ts, at0, lt, ls, false, locs, lsb⟩,
       [Obs.poll Reader.classroomR, Obs.antennaOn Reader.classroomR,
        Obs.antennaOff Reader.classroomR, Obs.poll Reader.hostelR,
        Obs.antennaOn Reader.hostelR, Obs.antennaOff Reader.hostelR]) := by
    simp [pollZonePhase, pollZoneHostel, readCardM]
  have hc := cycle_spec
    ⟨none, CardResult.card u, CardResult.absent, CardResult.absent, true,
     tNow⟩
    ⟨mo, GateState.idle, gi, ge, ts, at0, lt, ls, false, locs, lsb⟩
    _ _ _ _ _ _ _ _ _ _ _ _ h1 h2 h3 h4 h5 (periodicStatus_eq tNow _)
  refine ⟨?_, ?_, ?_, ?_⟩ <;> rw [hc] <;>
    simp [countUnknownCard, isUnknownCardObs, List.countP_append,
      countP_periodicStatus isUnknownCardObs (fun _ _ _ _ _ => rfl)]

/-- Witness for C8 with the all-zero credential. -/
theorem C8_unknown_at_gate_witness :
    countUnknownCard (cycle ⟨none, CardResult.card ⟨0, 0, 0, 0⟩,
        CardResult.absent, CardResult.absent, true, 700⟩
      ⟨Mode.mfree, GateState.idle, -1, 0, 0, 0, 0, false, false,
       [Loc.classroom, Loc.hostel, Loc.unknown, Loc.unknown, Loc.unknown],
       0⟩).2 = 1 ∧
    (cycle ⟨none, CardResult.card ⟨0, 0, 0, 0⟩, CardResult.absent,
        CardResult.absent, true, 700⟩
      ⟨Mode.mfree, GateState.idle, -1, 0, 0, 0, 0, false, false,
       [Loc.classroom, Loc.hostel, Loc.unknown, Loc.unknown, Loc.unknown],
       0⟩).1.gateState = GateState.idle ∧
    (cycle ⟨none, CardResult.card ⟨0, 0, 0, 0⟩, CardResult.absent,
        CardResult.absent, true, 700⟩
      ⟨Mode.mfree, GateState.idle, -1, 0, 0, 0, 0, false, false,
       [Loc.classroom, Loc.hostel, Loc.unknown, Loc.unknown, Loc.unknown],
       0⟩).1.gateStudentIdx = -1 ∧
    (cycle ⟨none, CardResult.card ⟨0, 0, 0, 0⟩, CardResult.absent,
        CardResult.absent, true, 700⟩
      ⟨Mode.mfree, GateState.idle, -1, 0, 0, 0, 0, false, false,
       [Loc.classroom, Loc.hostel, Loc.unknown, Loc.unknown, Loc.unknown],
       0⟩).1.locations =
      [Loc.classroom, Loc.hostel, Loc.unknown, Loc.unknown, Loc.unknown] :=
  C8_unknown_at_gate Mode.mfree (-1) 0 0 0 0 false
    [Loc.classroom, Loc.hostel, Loc.unknown, Loc.unknown, Loc.unknown] 0 700
    ⟨0, 0, 0, 0⟩ (by decide) (by decide)

end GuardianTrack

namespace GuardianTrack

-- ============================================================
--  C10: frame of the approval-timeout transition
-- ============================================================

/-- C10: the approval-timeout transition resets only the gate state and
the session student index; every location is left untouched (so the
timed-out student stays AtGate) and the transition broadcasts no status
snapshot — its only notice is the LCD expiry message. -/
theorem C10_timeout_frame (mo : Mode) (gi : Int) (ge ts at0 lt : Nat)
    (ls al : Bool) (locs : List Loc) (lsb tNow : Nat)
    (h : GATE_TIMEOUT_MS < tNow - ge) :
    updateGateStateMachine
      ⟨none, CardResult.absent, CardResult.absent, CardResult.absent, true,
       tNow⟩
      ⟨mo, GateState.waitingApproval, gi, ge, ts, at0, lt, ls, al, locs, lsb⟩ =
      (⟨mo, GateState.idle, -1, ge, ts, at0, lt, ls, al, locs, lsb⟩,
       [Obs.poll Reader.classroomR, Obs.antennaOn Reader.classroomR,
        Obs.antennaOff Reader.classroomR, Obs.poll Reader.hostelR,
        Obs.antennaOn Reader.hostelR, Obs.antennaOff Reader.hostelR,
        Obs.poll Reader.gateR, Obs.antennaOn Reader.gateR,
        Obs.piccHalt Reader.gateR, Obs.antennaOff Reader.gateR,
        Obs.lcdShow "Gate timeout" "Request expired"]) ∧
    countStatus (updateGateStateMachine
      ⟨none, CardResult.absent, CardResult.absent, CardResult.absent, true,
       tNow⟩
      ⟨mo, GateState.waitingApproval, gi, ge, ts, at0, lt, ls, al, locs,
       lsb⟩).2 = 0 ∧
    (updateGateStateMachine
      ⟨none, CardResult.absent, CardResult.absent, CardResult.absent, true,
       tNow⟩
      ⟨mo, GateState.waitingApproval, gi, ge, ts, at0, lt, ls, al, locs,
       lsb⟩).1.locations = locs := by
  have he : updateGateStateMachine
      ⟨none, CardResult.absent, CardResult.absent, CardResult.absent, true,
       tNow⟩
      ⟨mo, GateState.waitingApproval, gi, ge, ts, at0, lt, ls, al, locs, lsb⟩ =
      (⟨mo, GateState.idle, -1, ge, ts, at0, lt, ls, al, locs, lsb⟩,
       [Obs.poll Reader.classroomR, Obs.antennaOn Reader.classroomR,
        Obs.antennaOff Reader.classroomR, Obs.poll Reader.hostelR,
        Obs.antennaOn Reader.hostelR, Obs.antennaOff Reader.hostelR,
        Obs.poll Reader.gateR, Obs.antennaOn Reader.gateR,
        Obs.piccHalt Reader.gateR, Obs.antennaOff Reader.gateR,
        Obs.lcdShow "Gate timeout" "Request expired"]) := by
    simp [updateGateStateMachine, updWaitClass, updWaitHostel,
      updWaitPresence, updWaitTimeout, readCardM, isCardPresentM, h]
  refine ⟨he, ?_, ?_⟩ <;> rw [he] <;>
    simp [countStatus, isStatusObs]

/-- Witness for C10: a session opened at 0 ms, observed at 25 s. -/
theorem C10_timeout_frame_witness :
    updateGateStateMachine
      ⟨none, CardResult.absent, CardResult.absent, CardResult.absent, true,
       25000⟩
      ⟨Mode.mfree, GateState.waitingApproval, 2, 0, 0, 0, 0, false, false,
       [Loc.unknown, Loc.unknown, Loc.atGate, Loc.unknown, Loc.unknown], 0⟩ =
      (⟨Mode.mfree, GateState.idle, -1, 0, 0, 0, 0, false, false,
        [Loc.unknown, Loc.unknown, Loc.atGate, Loc.unknown, Loc.unknown], 0⟩,
       [Obs.poll Reader.classroomR, Obs.antennaOn Reader.classroomR,
        Obs.antennaOff Reader.classroomR, Obs.poll Reader.hostelR,
        Obs.antennaOn Reader.hostelR, Obs.antennaOff Reader.hostelR,
        Obs.poll Reader.gateR, Obs.antennaOn Reader.gateR,
        Obs.piccHalt Reader.gateR, Obs.antennaOff Reader.gateR,
        Obs.lcdShow "Gate timeout" "Request expired"]) ∧
    countStatus (updateGateStateMachine
      ⟨none, CardResult.absent, CardResult.absent, CardResult.absent, true,
       25000⟩
      ⟨Mode.mfree, GateState.waitingApproval, 2, 0, 0, 0, 0, false, false,
       [Loc.unknown, Loc.unknown, Loc.atGate, Loc.unknown, Loc.unknown],
       0⟩).2 = 0 ∧
    (updateGateStateMachine
      ⟨none, CardResult.absent, CardResult.absent, CardResult.absent, true,
       25000⟩
      ⟨Mode.mfree, GateState.waitingApproval, 2, 0, 0, 0, 0, false, false,
       [Loc.unknown, Loc.unknown, Loc.atGate, Loc.unknown, Loc.unknown],
       0⟩).1.locations =
      [Loc.unknown, Loc.unknown, Loc.atGate, Loc.unknown, Loc.unknown] :=
  C10_timeout_frame Mode.mfree 2 0 0 0 0 false false
    [Loc.unknown, Loc.unknown, Loc.atGate, Loc.unknown, Loc.unknown] 0 25000
    (by decide)

-- ============================================================
--  C9: approval-wait timeout behavior
-- ============================================================

/-- C9: a session sitting in WaitingApproval with the card present and
nothing at the other readers emits neither sneaked nor approved events
and no expiry notice while within the 20 s bound; once the wait
strictly exceeds the bound the session is abandoned back to Idle with
the student index cleared, exactly one expiry notice is surfaced, and
still no sneaked or approved event is emitted. -/
theorem C9_wait_timeout (mo : Mode) (gi : Int) (ge ts at0 lt : Nat)
    (ls : Bool) (locs : List Loc) (lsb t1 t2 : Nat)
    (h1 : t1 - ge ≤ GATE_TIMEOUT_MS) (h2 : GATE_TIMEOUT_MS < t2 - ge) :
    (cycle ⟨none, CardResult.absent, CardResult.absent, CardResult.absent,
        true, t1⟩
      ⟨mo, GateState.waitingApproval, gi, ge, ts, at0, lt, ls, false, locs,
       lsb⟩).1.gateState = GateState.waitingApproval ∧
    countSneaked (cycle ⟨none, CardResult.absent, CardResult.absent,
        CardResult.absent, true, t1⟩
      ⟨mo, GateState.waitingApproval, gi, ge, ts, at0, lt, ls, false, locs,
       lsb⟩).2 = 0 ∧
    countApproved (cycle ⟨none, CardResult.absent, CardResult.absent,
        CardResult.absent, true, t1⟩
      ⟨mo, GateState.waitingApproval, gi, ge, ts, at0, lt, ls, false, locs,
       lsb⟩).2 = 0 ∧
    countExpiryNotice (cycle ⟨none, CardResult.absent, CardResult.absent,
        CardResult.absent, true, t1⟩
      ⟨mo, GateState.waitingApproval, gi, ge, ts, at0, lt, ls, false, locs,
       lsb⟩).2 = 0 ∧
    (cycle ⟨none, CardResult.absent, CardResult.absent, CardResult.absent,
        true, t2⟩
      ⟨mo, GateState.waitingApproval, gi, ge, ts, at0, lt, ls, false, locs,
       lsb⟩).1.gateState = GateState.idle ∧
    (cycle ⟨none, CardResult.absent, CardResult.absent, CardResult.absent,
        true, t2⟩
      ⟨mo, GateState.waitingApproval, gi, ge, ts, at0, lt, ls, false, locs,
       lsb⟩).1.gateStudentIdx = -1 ∧
    countExpiryNotice (cycle ⟨none, CardResult.absent, CardResult.absent,
        CardResult.absent, true, t2⟩
      ⟨mo, GateState.waitingApproval, gi, ge, ts, at0, lt, ls, false, locs,
       lsb⟩).2 = 1 ∧
    countSneaked (cycle ⟨none, CardResult.absent, CardResult.absent,
        CardResult.absent, true, t2⟩
      ⟨mo, GateState.waitingApproval, gi, ge, ts, at0, lt, ls, false, locs,
       lsb⟩).2 = 0 ∧
    countApproved (cycle ⟨none, CardResult.absent, CardResult.absent,
        CardResult.absent, true, t2⟩
      ⟨mo, GateState.waitingApproval, gi, ge, ts, at0, lt, ls, false, locs,
       lsb⟩).2 = 0 := by
  have h1' : ¬ (GATE_TIMEOUT_MS < t1 - ge) := not_lt.mpr h1
  have hA2 : updateGateStateMachine
      ⟨none, CardResult.absent, CardResult.absent, CardResult.absent, true,
       t1⟩
      ⟨mo, GateState.waitingApproval, gi, ge, ts, at0, lt, ls, false, locs,
       lsb⟩ =
      (⟨mo, GateState.waitingApproval, gi, ge, ts, at0, lt, ls, false, locs,
        lsb⟩,
       [Obs.poll Reader.classroomR, Obs.antennaOn Reader.classroomR,
        Obs.antennaOff Reader.classroomR, Obs.poll Reader.hostelR,
        Obs.antennaOn Reader.hostelR, Obs.antennaOff Reader.hostelR,
        Obs.poll Reader.gateR, Obs.antennaOn Reader.gateR,
        Obs.piccHalt Reader.gateR, Obs.antennaOff Reader.gateR]) := by
    simp [updateGateStateMachine, updWaitClass, updWaitHostel,
      updWaitPresence, updWaitTimeout, readCardM, isCardPresentM, h1']
  have hA3 : updateAlarm t1
      ⟨mo, GateState.waitingApproval, gi, ge, ts, at0, lt, ls, false, locs,
       lsb⟩ =
      (⟨mo, GateState.waitingApproval, gi, ge, ts, at0, lt, ls, false, locs,
        lsb⟩, []) := by
    simp [updateAlarm]
  have hA4 : pollGatePhase
      ⟨none, CardResult.absent, CardResult.absent, CardResult.absent, true,
       t1⟩
      ⟨mo, GateState.waitingApproval, gi, ge, ts, at0, lt, ls, false, locs,
       lsb⟩ =
      (⟨mo, GateState.waitingApproval, gi, ge, ts, at0, lt, ls, false, locs,
        lsb⟩, []) := by
    simp [pollGatePhase]
  have hA5 : pollZonePhase
      ⟨none, CardResult.absent, CardResult.absent, CardResult.absent, true,
       t1⟩
      ⟨mo, GateState.waitingApproval, gi, ge, ts, at0, lt, ls, false, locs,
       lsb⟩ =
      (⟨mo, GateState.waitingApproval, gi, ge, ts, at0, lt, ls, false, locs,
        lsb⟩, []) := by
    simp [pollZonePhase]
  have hcA := cycle_spec
    ⟨none, CardResult.absent, CardResult.absent, CardResult.absent, true, t1⟩
    ⟨mo, GateState.waitingApproval, gi, ge, ts, at0, lt, ls, false, locs,
     lsb⟩ _ _ _ _ _ _ _ _ _ _ _ _
    rfl hA2 hA3 hA4 hA5 (periodicStatus_eq t1 _)
  have hB2 : updateGateStateMachine
      ⟨none, CardResult.absent, CardResult.absent, CardResult.absent, true,
       t2⟩
      ⟨mo, GateState.waitingApproval, gi, ge, ts, at0, lt, ls, false, locs,
       lsb⟩ =
      (⟨mo, GateState.idle, -1, ge, ts, at0, lt, ls, false, locs, lsb⟩,
       [Obs.poll Reader.classroomR, Obs.antennaOn Reader.classroomR,
        Obs.antennaOff Reader.classroomR, Obs.poll Reader.hostelR,
        Obs.antennaOn Reader.hostelR, Obs.antennaOff Reader.hostelR,
        Obs.poll Reader.gateR, Obs.antennaOn Reader.gateR,
        Obs.piccHalt Reader.gateR, Obs.antennaOff Reader.gateR,
        Obs.lcdShow "Gate timeout" "Request expired"]) := by
    simp [updateGateStateMachine, updWaitClass, updWaitHostel,
      updWaitPresence, updWaitTimeout, readCardM, isCardPresentM, h2]
  have hB3 : updateAlarm t2
      ⟨mo, GateState.idle, -1, ge, ts, at0, lt, ls, false, locs, lsb⟩ =
      (⟨mo, GateState.idle, -1, ge, ts, at0, lt, ls, false, locs, lsb⟩, []) := by
    simp [updateAlarm]
  have hB4 : pollGatePhase
      ⟨none, CardResult.absent, CardResult.absent, CardResult.absent, true,
       t2⟩
      ⟨mo, GateState.idle, -1, ge, ts, at0, lt, ls, false, locs, lsb⟩ =
      (⟨mo, GateState.idle, -1, ge, ts, at0, lt, ls, false, locs, lsb⟩,
       [Obs.poll Reader.gateR, Obs.antennaOn Reader.gateR,
        Obs.antennaOff Reader.gateR]) := by
    simp [pollGatePhase, readCardM]
  have hB5 : pollZonePhase
      ⟨none, CardResult.absent, CardResult.absent, CardResult.absent, true,
       t2⟩
      ⟨mo, GateState.idle, -1, ge, ts, at0, lt, ls, false, locs, lsb⟩ =
      (⟨mo, GateState.idle, -1, ge, ts, at0, lt, ls, false, locs, lsb⟩,
       [Obs.poll Reader.classroomR, Obs.antennaOn Reader.classroomR,
        Obs.antennaOff Reader.classroomR, Obs.poll Reader.hostelR,
        Obs.antennaOn Reader.hostelR, Obs.antennaOff Reader.hostelR]) := by
    simp [pollZonePhase, pollZoneHostel, readCardM]
  have hcB := cycle_spec
    ⟨none, CardResult.absent, CardResult.absent, CardResult.absent, true, t2⟩
    ⟨mo, GateState.waitingApproval, gi, ge, ts, at0, lt, ls, false, locs,
     lsb⟩ _ _ _ _ _ _ _ _ _ _ _ _
    rfl hB2 hB3 hB4 hB5 (periodicStatus_eq t2 _)
  refine ⟨?_, ?_, ?_, ?_, ?_, ?_, ?_, ?_, ?_⟩
  · rw [hcA]
  · rw [hcA]
    simp [countSneaked, isSneakedObs, List.countP_append,
      countP_periodicStatus isSneakedObs (fun _ _ _ _ _ => rfl)]
  · rw [hcA]
    simp [countApproved, isApprovedObs, List.countP_append,
      countP_periodicStatus isApprovedObs (fun _ _ _ _ _ => rfl)]
  · rw [hcA]
    simp [countExpiryNotice, isExpiryNoticeObs, List.countP_append,
      countP_periodicStatus isExpiryNoticeObs (fun _ _ _ _ _ => rfl)]
  · rw [hcB]
  · rw [hcB]
  · rw [hcB]
    simp [countExpiryNotice, isExpiryNoticeObs, List.countP_append,
      countP_periodicStatus isExpiryNoticeObs (fun _ _ _ _ _ => rfl)]
  · rw [hcB]
    simp [countSneaked, isSneakedObs, List.countP_append,
      countP_periodicStatus isSneakedObs (fun _ _ _ _ _ => rfl)]
  · rw [hcB]
    simp [countApproved, isApprovedObs, List.countP_append,
      countP_periodicStatus isApprovedObs (fun _ _ _ _ _ => rfl)]

/-- Witness for C9 at 10 s (within bound) and 21 s (expired). -/
theorem C9_wait_timeout_witness :
    (cycle ⟨none, CardResult.absent, CardResult.absent, CardResult.absent,
        true, 10000⟩
      ⟨Mode.mfree, GateState.waitingApproval, 1, 0, 0, 0, 0, false, false,
       [Loc.unknown, Loc.atGate, Loc.unknown, Loc.unknown, Loc.unknown],
       0⟩).1.gateState = GateState.waitingApproval ∧
    countSneaked (cycle ⟨none, CardResult.absent, CardResult.absent,
        CardResult.absent, true, 10000⟩
      ⟨Mode.mfree, GateState.waitingApproval, 1, 0, 0, 0, 0, false, false,
       [Loc.unknown, Loc.atGate, Loc.unknown, Loc.unknown, Loc.unknown],
       0⟩).2 = 0 ∧
    countApproved (cycle ⟨none, CardResult.absent, CardResult.absent,
        CardResult.absent, true, 10000⟩
      ⟨Mode.mfree, GateState.waitingApproval, 1, 0, 0, 0, 0, false, false,
       [Loc.unknown, Loc.atGate, Loc.unknown, Loc.unknown, Loc.unknown],
       0⟩).2 = 0 ∧
    countExpiryNotice (cycle ⟨none, CardResult.absent, CardResult.absent,
        CardResult.absent, true, 10000⟩
      ⟨Mode.mfree, GateState.waitingApproval, 1, 0, 0, 0, 0, false, false,
       [Loc.unknown, Loc.atGate, Loc.unknown, Loc.unknown, Loc.unknown],
       0⟩).2 = 0 ∧
    (cycle ⟨none, CardResult.absent, CardResult.absent, CardResult.absent,
        true, 21000⟩
      ⟨Mode.mfree, GateState.waitingApproval, 1, 0, 0, 0, 0, false, false,
       [Loc.unknown, Loc.atGate, Loc.unknown, Loc.unknown, Loc.unknown],
       0⟩).1.gateState = GateState.idle ∧
    (cycle ⟨none, CardResult.absent, CardResult.absent, CardResult.absent,
        true, 21000⟩
      ⟨Mode.mfree, GateState.waitingApproval, 1, 0, 0, 0, 0, false, false,
       [Loc.unknown, Loc.atGate, Loc.unknown, Loc.unknown, Loc.unknown],
       0⟩).1.gateStudentIdx = -1 ∧
    countExpiryNotice (cycle ⟨none, CardResult.absent, CardResult.absent,
        CardResult.absent, true, 21000⟩
      ⟨Mode.mfree, GateState.waitingApproval, 1, 0, 0, 0, 0, false, false,
       [Loc.unknown, Loc.atGate, Loc.unknown, Loc.unknown, Loc.unknown],
       0⟩).2 = 1 ∧
    countSneaked (cycle ⟨none, CardResult.absent, CardResult.absent,
        CardResult.absent, true, 21000⟩
      ⟨Mode.mfree, GateState.waitingApproval, 1, 0, 0, 0, 0, false, false,
       [Loc.unknown, Loc.atGate, Loc.unknown, Loc.unknown, Loc.unknown],
       0⟩).2 = 0 ∧
    countApproved (cycle ⟨none, CardResult.absent, CardResult.absent,
        CardResult.absent, true, 21000⟩
      ⟨Mode.mfree, GateState.waitingApproval, 1, 0, 0, 0, 0, false, false,
       [Loc.unknown, Loc.atGate, Loc.unknown, Loc.unknown, Loc.unknown],
       0⟩).2 = 0 :=
  C9_wait_timeout Mode.mfree 1 0 0 0 0 false
    [Loc.unknown, Loc.atGate, Loc.unknown, Loc.unknown, Loc.unknown] 0
    10000 21000 (by decide) (by decide)

end GuardianTrack

namespace GuardianTrack

/-- An administrative tap at the Classroom reader during the Alarm
state stops the alarm and returns the machine to Idle, whatever the
rest of the state is. -/
lemma alarmClear_cycle (mo : Mode) (gi : Int) (ge ts at0 lt : Nat)
    (ls : Bool) (locs : List Loc) (lsb tC : Nat) :
    (cycle ⟨none, CardResult.absent, CardResult.card adminUID,
        CardResult.absent, false, tC⟩
      ⟨mo, GateState.alarm, gi, ge, ts, at0, lt, ls, true, locs,
       lsb⟩).1.alarmActive = false ∧
    (cycle ⟨none, CardResult.absent, CardResult.card adminUID,
        CardResult.absent, false, tC⟩
      ⟨mo, GateState.alarm, gi, ge, ts, at0, lt, ls, true, locs,
       lsb⟩).1.gateState = GateState.idle := by
  have h2 : updateGateStateMachine
      ⟨none, CardResult.absent, CardResult.card adminUID, CardResult.absent,
       false, tC⟩
      ⟨mo, GateState.alarm, gi, ge, ts, at0, lt, ls, true, locs, lsb⟩ =
      (⟨mo, GateState.idle, -1, ge, ts, at0, lt, ls, false, locs, lsb⟩,
       [Obs.poll Reader.classroomR, Obs.antennaOn Reader.classroomR,
        Obs.piccHalt Reader.classroomR, Obs.stopCrypto Reader.classroomR,
        Obs.antennaOff Reader.classroomR, Obs.alarmStopped,
        Obs.lcdShow "Alarm cleared" "by Admin"]) := by
    simp [updateGateStateMachine, updAlarmCase, updAlarmClear, stopAlarm,
      readCardM, isAdmin_adminUID]
  have h3 : updateAlarm tC
      ⟨mo, GateState.idle, -1, ge, ts, at0, lt, ls, false, locs, lsb⟩ =
      (⟨mo, GateState.idle, -1, ge, ts, at0, lt, ls, false, locs, lsb⟩, []) := by
    simp [updateAlarm]
  have h4 : pollGatePhase
      ⟨none, CardResult.absent, CardResult.card adminUID, CardResult.absent,
       false, tC⟩
      ⟨mo, GateState.idle, -1, ge, ts, at0, lt, ls, false, locs, lsb⟩ =
      (⟨mo, GateState.idle, -1, ge, ts, at0, lt, ls, false, locs, lsb⟩,
       [Obs.poll Reader.gateR, Obs.antennaOn Reader.gateR,
        Obs.antennaOff Reader.gateR]) := by
    simp [pollGatePhase, readCardM]
  have h5 : pollZonePhase
      ⟨none, CardResult.absent, CardResult.card adminUID, CardResult.absent,
       false, tC⟩
      ⟨mo, GateState.idle, -1, ge, ts, at0, lt, ls, false, locs, lsb⟩ =
      (⟨mo, GateState.idle, -1, ge, ts, at0, lt, ls, false, locs, lsb⟩,
       [Obs.poll Reader.classroomR, Obs.antennaOn Reader.classroomR,
        Obs.piccHalt Reader.classroomR, Obs.stopCrypto Reader.classroomR,
        Obs.antennaOff Reader.classroomR, Obs.poll Reader.hostelR,
        Obs.antennaOn Reader.hostelR, Obs.antennaOff Reader.hostelR]) := by
    simp [pollZonePhase, pollZoneHostel, readCardM, isAdmin_adminUID]
  have hc := cycle_spec
    ⟨none, CardResult.absent, CardResult.card adminUID, CardResult.absent,
     false, tC⟩
    ⟨mo, GateState.alarm, gi, ge, ts, at0, lt, ls, true, locs, lsb⟩
    _ _ _ _ _ _ _ _ _ _ _ _ rfl h2 h3 h4 h5 (periodicStatus_eq tC _)
  exact ⟨by rw [hc], by rw [hc]⟩

-- ============================================================
--  C1: sneak countdown expiry and the sustained alarm
-- ============================================================

/-- C1: once the grace window has elapsed (the source fires at
elapsed ≥ 5000 ms, so in particular for any strictly greater elapsed
time) with nothing back at any reader and no approval, the session
student location becomes Sneaked, exactly one sneaked event is
emitted, the machine enters Alarm with the alarm controller engaged at
that instant; the controller then stays active as long as its elapsed
time is within the 10 s bound, auto-stops as soon as it strictly
exceeds it, and an administrative tap at the Classroom reader during
Alarm clears it early and returns the machine to Idle. -/
theorem C1_sneak_expiry_alarm (mo : Mode) (i : Nat) (ge ts at0 lt : Nat)
    (ls : Bool) (locs : List Loc) (lsb tNow tIn tOut tClear : Nat)
    (hi : i < 5) (hlen : locs.length = 5)
    (hw : SNEAK_WINDOW_MS ≤ tNow - ts)
    (hIn : tIn - tNow ≤ ALARM_DURATION_MS)
    (hOut : ALARM_DURATION_MS < tOut - tNow) :
    getLoc (cycle ⟨none, CardResult.absent, CardResult.absent,
        CardResult.absent, false, tNow⟩
      ⟨mo, GateState.sneakCountdown, Int.ofNat i, ge, ts, at0, lt, ls, false,
       locs, lsb⟩).1.locations i = Loc.sneaked ∧
    countSneaked (cycle ⟨none, CardResult.absent, CardResult.absent,
        CardResult.absent, false, tNow⟩
      ⟨mo, GateState.sneakCountdown, Int.ofNat i, ge, ts, at0, lt, ls, false,
       locs, lsb⟩).2 = 1 ∧
    (cycle ⟨none, CardResult.absent, CardResult.absent, CardResult.absent,
        false, tNow⟩
      ⟨mo, GateState.sneakCountdown, Int.ofNat i, ge, ts, at0, lt, ls, false,
       locs, lsb⟩).1.gateState = GateState.alarm ∧
    (cycle ⟨none, CardResult.absent, CardResult.absent, CardResult.absent,
        false, tNow⟩
      ⟨mo, GateState.sneakCountdown, Int.ofNat i, ge, ts, at0, lt, ls, false,
       locs, lsb⟩).1.alarmActive = true ∧
    (cycle ⟨none, CardResult.absent, CardResult.absent, CardResult.absent,
        false, tNow⟩
      ⟨mo, GateState.sneakCountdown, Int.ofNat i, ge, ts, at0, lt, ls, false,
       locs, lsb⟩).1.alarmStartTime = tNow ∧
    (updateAlarm tIn (cycle ⟨none, CardResult.absent, CardResult.absent,
        CardResult.absent, false, tNow⟩
      ⟨mo, GateState.sneakCountdown, Int.ofNat i, ge, ts, at0, lt, ls, false,
       locs, lsb⟩).1).1.alarmActive = true ∧
    (updateAlarm tOut (cycle ⟨none, CardResult.absent, CardResult.absent,
        CardResult.absent, false, tNow⟩
      ⟨mo, GateState.sneakCountdown, Int.ofNat i, ge, ts, at0, lt, ls, false,
       locs, lsb⟩).1).1.alarmActive = false ∧
    (cycle ⟨none, CardResult.absent, CardResult.card adminUID,
        CardResult.absent, false, tClear⟩
      (cycle ⟨none, CardResult.absent, CardResult.absent, CardResult.absent,
          false, tNow⟩
        ⟨mo, GateState.sneakCountdown, Int.ofNat i, ge, ts, at0, lt, ls,
         false, locs, lsb⟩).1).1.alarmActive = false ∧
    (cycle ⟨none, CardResult.absent, CardResult.card adminUID,
        CardResult.absent, false, tClear⟩
      (cycle ⟨none, CardResult.absent, CardResult.absent, CardResult.absent,
          false, tNow⟩
        ⟨mo, GateState.sneakCountdown, Int.ofNat i, ge, ts, at0, lt, ls,
         false, locs, lsb⟩).1).1.gateState = GateState.idle := by
  have hIn' : ¬ (ALARM_DURATION_MS < tIn - tNow) := not_lt.mpr hIn
  have h2 : updateGateStateMachine
      ⟨none, CardResult.absent, CardResult.absent, CardResult.absent, false,
       tNow⟩
      ⟨mo, GateState.sneakCountdown, Int.ofNat i, ge, ts, at0, lt, ls, false,
       locs, lsb⟩ =
      (⟨mo, GateState.alarm, Int.ofNat i, ge, ts, tNow, tNow, true, true,
        locs.set i Loc.sneaked, lsb⟩,
       [Obs.poll Reader.classroomR, Obs.antennaOn Reader.classroomR,
        Obs.antennaOff Reader.classroomR, Obs.poll Reader.hostelR,
        Obs.antennaOn Reader.hostelR, Obs.antennaOff Reader.hostelR,
        Obs.poll Reader.gateR, Obs.antennaOn Reader.gateR,
        Obs.antennaOff Reader.gateR, Obs.sneakedEvt (Int.ofNat i),
        Obs.statusEvt (countAt Loc.classroom (locs.set i Loc.sneaked))
          (countAt Loc.hostel (locs.set i Loc.sneaked))
          (countAt Loc.left (locs.set i Loc.sneaked))
          (countAt Loc.sneaked (locs.set i Loc.sneaked)) mo,
        Obs.lcdShow "!! ALARM !!" "student", Obs.alarmStarted]) := by
    simp [updateGateStateMachine, updSneakClass, updSneakHostel,
      updSneakGate, updSneakExpiry, startAlarm, setLocI, sendStatusObs,
      readCardM, hw]
  have h3 : updateAlarm tNow
      ⟨mo, GateState.alarm, Int.ofNat i, ge, ts, tNow, tNow, true, true,
       locs.set i Loc.sneaked, lsb⟩ =
      (⟨mo, GateState.alarm, Int.ofNat i, ge, ts, tNow, tNow, true, true,
        locs.set i Loc.sneaked, lsb⟩, []) := by
    simp [updateAlarm]
  have h4 : pollGatePhase
      ⟨none, CardResult.absent, CardResult.absent, CardResult.absent, false,
       tNow⟩
      ⟨mo, GateState.alarm, Int.ofNat i, ge, ts, tNow, tNow, true, true,
       locs.set i Loc.sneaked, lsb⟩ =
      (⟨mo, GateState.alarm, Int.ofNat i, ge, ts, tNow, tNow, true, true,
        locs.set i Loc.sneaked, lsb⟩, []) := by
    simp [pollGatePhase]
  have h5 : pollZonePhase
      ⟨none, CardResult.absent, CardResult.absent, CardResult.absent, false,
       tNow⟩
      ⟨mo, GateState.alarm, Int.ofNat i, ge, ts, tNow, tNow, true, true,
       locs.set i Loc.sneaked, lsb⟩ =
      (⟨mo, GateState.alarm, Int.ofNat i, ge, ts, tNow, tNow, true, true,
        locs.set i Loc.sneaked, lsb⟩,
       [Obs.poll Reader.classroomR, Obs.antennaOn Reader.classroomR,
        Obs.antennaOff Reader.classroomR, Obs.poll Reader.hostelR,
        Obs.antennaOn Reader.hostelR, Obs.antennaOff Reader.hostelR]) := by
    simp [pollZonePhase, pollZoneHostel, readCardM]
  have hc := cycle_spec
    ⟨none, CardResult.absent, CardResult.absent, CardResult.absent, false,
     tNow⟩
    ⟨mo, GateState.sneakCountdown, Int.ofNat i, ge, ts, at0, lt, ls, false,
     locs, lsb⟩ _ _ _ _ _ _ _ _ _ _ _ _ rfl h2 h3 h4 h5
    (periodicStatus_eq tNow _)
  refine ⟨?_, ?_, ?_, ?_, ?_, ?_, ?_, ?_, ?_⟩
  · rw [hc]
    exact getLoc_set_self locs i Loc.sneaked (hlen ▸ hi)
  · rw [hc]
    simp [countSneaked, isSneakedObs, List.countP_append,
      countP_periodicStatus isSneakedObs (fun _ _ _ _ _ => rfl)]
  · rw [hc]
  · rw [hc]
  · rw [hc]
  · rw [hc]
    simp [updateAlarm, hIn', apply_ite]
  · rw [hc]
    simp [updateAlarm, stopAlarm, hOut]
  · rw [hc]
    exact (alarmClear_cycle _ _ _ _ _ _ _ _ _ _).1
  · rw [hc]
    exact (alarmClear_cycle _ _ _ _ _ _ _ _ _ _).2

end GuardianTrack

namespace GuardianTrack

/-- Witness for C1: student 0 removed at 2 s, observed at 7 s (exactly
the 5 s boundary, where the source fires), alarm checked at 15 s
(within bound) and 18 s (expired), admin clear at 8 s. -/
theorem C1_sneak_expiry_alarm_witness :
    getLoc (cycle ⟨none, CardResult.absent, CardResult.absent,
        CardResult.absent, false, 7000⟩
      ⟨Mode.mfree, GateState.sneakCountdown, Int.ofNat 0, 1000, 2000, 0, 0,
       false, false, [Loc.atGate, Loc.unknown, Loc.unknown, Loc.unknown,
       Loc.unknown], 0⟩).1.locations 0 = Loc.sneaked ∧
    countSneaked (cycle ⟨none, CardResult.absent, CardResult.absent,
        CardResult.absent, false, 7000⟩
      ⟨Mode.mfree, GateState.sneakCountdown, Int.ofNat 0, 1000, 2000, 0, 0,
       false, false, [Loc.atGate, Loc.unknown, Loc.unknown, Loc.unknown,
       Loc.unknown], 0⟩).2 = 1 ∧
    (cycle ⟨none, CardResult.absent, CardResult.absent, CardResult.absent,
        false, 7000⟩
      ⟨Mode.mfree, GateState.sneakCountdown, Int.ofNat 0, 1000, 2000, 0, 0,
       false, false, [Loc.atGate, Loc.unknown, Loc.unknown, Loc.unknown,
       Loc.unknown], 0⟩).1.gateState = GateState.alarm ∧
    (cycle ⟨none, CardResult.absent, CardResult.absent, CardResult.absent,
        false, 7000⟩
      ⟨Mode.mfree, GateState.sneakCountdown, Int.ofNat 0, 1000, 2000, 0, 0,
       false, false, [Loc.atGate, Loc.unknown, Loc.unknown, Loc.unknown,
       Loc.unknown], 0⟩).1.alarmActive = true ∧
    (cycle ⟨none, CardResult.absent, CardResult.absent, CardResult.absent,
        false, 7000⟩
      ⟨Mode.mfree, GateState.sneakCountdown, Int.ofNat 0, 1000, 2000, 0, 0,
       false, false, [Loc.atGate, Loc.unknown, Loc.unknown, Loc.unknown,
       Loc.unknown], 0⟩).1.alarmStartTime = 7000 ∧
    (updateAlarm 15000 (cycle ⟨none, CardResult.absent, CardResult.absent,
        CardResult.absent, false, 7000⟩
      ⟨Mode.mfree, GateState.sneakCountdown, Int.ofNat 0, 1000, 2000, 0, 0,
       false, false, [Loc.atGate, Loc.unknown, Loc.unknown, Loc.unknown,
       Loc.unknown], 0⟩).1).1.alarmActive = true ∧
    (updateAlarm 18000 (cycle ⟨none, CardResult.absent, CardResult.absent,
        CardResult.absent, false, 7000⟩
      ⟨Mode.mfree, GateState.sneakCountdown, Int.ofNat 0, 1000, 2000, 0, 0,
       false, false, [Loc.atGate, Loc.unknown, Loc.unknown, Loc.unknown,
       Loc.unknown], 0⟩).1).1.alarmActive = false ∧
    (cycle ⟨none, CardResult.absent, CardResult.card adminUID,
        CardResult.absent, false, 8000⟩
      (cycle ⟨none, CardResult.absent, CardResult.absent, CardResult.absent,
          false, 7000⟩
        ⟨Mode.mfree, GateState.sneakCountdown, Int.ofNat 0, 1000, 2000, 0, 0,
         false, false, [Loc.atGate, Loc.unknown, Loc.unknown, Loc.unknown,
         Loc.unknown], 0⟩).1).1.alarmActive = false ∧
    (cycle ⟨none, CardResult.absent, CardResult.card adminUID,
        CardResult.absent, false, 8000⟩
      (cycle ⟨none, CardResult.absent, CardResult.absent, CardResult.absent,
          false, 7000⟩
        ⟨Mode.mfree, GateState.sneakCountdown, Int.ofNat 0, 1000, 2000, 0, 0,
         false, false, [Loc.atGate, Loc.unknown, Loc.unknown, Loc.unknown,
         Loc.unknown], 0⟩).1).1.gateState = GateState.idle :=
  C1_sneak_expiry_alarm Mode.mfree 0 1000 2000 0 0 false
    [Loc.atGate, Loc.unknown, Loc.unknown, Loc.unknown, Loc.unknown] 0
    7000 15000 18000 8000 (by decide) (by decide) (by decide) (by decide)
    (by decide)

end GuardianTrack

namespace GuardianTrack

-- ============================================================
--  C2: gate tap, admin approval, gate open then closed
-- ============================================================

/-- C2: a known student tapping the Gate reader while Idle whose exit
is approved by the administrative credential at the Classroom reader
(and, symmetrically, at the Hostel reader) within the approval window
ends the three-cycle run with the machine back in Idle, the student
location Left, exactly one approved event, and the gate actuator
commanded open (90) and then closed (0). -/
theorem C2_gate_approval_roundtrip (mo : Mode) (gi : Int) (i : Nat)
    (ge ts at0 lt : Nat) (ls : Bool) (locs : List Loc) (lsb t0 t1 t2 : Nat)
    (hi : i < 5) (hlen : locs.length = 5)
    (h01 : t1 - t0 ≤ GATE_TIMEOUT_MS) (h12 : GATE_OPEN_TIME_MS ≤ t2 - t1) :
    (run ⟨mo, GateState.idle, gi, ge, ts, at0, lt, ls, false, locs, lsb⟩
      [⟨none, CardResult.card (uidOf i), CardResult.absent, CardResult.absent,
        true, t0⟩,
       ⟨none, CardResult.absent, CardResult.card adminUID, CardResult.absent,
        true, t1⟩,
       ⟨none, CardResult.absent, CardResult.absent, CardResult.absent, true,
        t2⟩]).1.gateState = GateState.idle ∧
    getLoc (run ⟨mo, GateState.idle, gi, ge, ts, at0, lt, ls, false, locs,
        lsb⟩
      [⟨none, CardResult.card (uidOf i), CardResult.absent, CardResult.absent,
        true, t0⟩,
       ⟨none, CardResult.absent, CardResult.card adminUID, CardResult.absent,
        true, t1⟩,
       ⟨none, CardResult.absent, CardResult.absent, CardResult.absent, true,
        t2⟩]).1.locations i = Loc.left ∧
    countApproved (run ⟨mo, GateState.idle, gi, ge, ts, at0, lt, ls, false,
        locs, lsb⟩
      [⟨none, CardResult.card (uidOf i), CardResult.absent, CardResult.absent,
        true, t0⟩,
       ⟨none, CardResult.absent, CardResult.card adminUID, CardResult.absent,
        true, t1⟩,
       ⟨none, CardResult.absent, CardResult.absent, CardResult.absent, true,
        t2⟩]).2 = 1 ∧
    servoCmds (run ⟨mo, GateState.idle, gi, ge, ts, at0, lt, ls, false, locs,
        lsb⟩
      [⟨none, CardResult.card (uidOf i), CardResult.absent, CardResult.absent,
        true, t0⟩,
       ⟨none, CardResult.absent, CardResult.card adminUID, CardResult.absent,
        true, t1⟩,
       ⟨none, CardResult.absent, CardResult.absent, CardResult.absent, true,
        t2⟩]).2 = [90, 0] ∧
    (run ⟨mo, GateState.idle, gi, ge, ts, at0, lt, ls, false, locs, lsb⟩
      [⟨none, CardResult.card (uidOf i), CardResult.absent, CardResult.absent,
        true, t0⟩,
       ⟨none, CardResult.absent, CardResult.absent, CardResult.card adminUID,
        true, t1⟩,
       ⟨none, CardResult.absent, CardResult.absent, CardResult.absent, true,
        t2⟩]).1.gateState = GateState.idle ∧
    getLoc (run ⟨mo, GateState.idle, gi, ge, ts, at0, lt, ls, false, locs,
        lsb⟩
      [⟨none, CardResult.card (uidOf i), CardResult.absent, CardResult.absent,
        true, t0⟩,
       ⟨none, CardResult.absent, CardResult.absent, CardResult.card adminUID,
        true, t1⟩,
       ⟨none, CardResult.absent, CardResult.absent, CardResult.absent, true,
        t2⟩]).1.locations i = Loc.left ∧
    countApproved (run ⟨mo, GateState.idle, gi, ge, ts, at0, lt, ls, false,
        locs, lsb⟩
      [⟨none, CardResult.card (uidOf i), CardResult.absent, CardResult.absent,
        true, t0⟩,
       ⟨none, CardResult.absent, CardResult.absent, CardResult.card adminUID,
        true, t1⟩,
       ⟨none, CardResult.absent, CardResult.absent, CardResult.absent, true,
        t2⟩]).2 = 1 ∧
    servoCmds (run ⟨mo, GateState.idle, gi, ge, ts, at0, lt, ls, false, locs,
        lsb⟩
      [⟨none, CardResult.card (uidOf i), CardResult.absent, CardResult.absent,
        true, t0⟩,
       ⟨none, CardResult.absent, CardResult.absent, CardResult.card adminUID,
        true, t1⟩,
       ⟨none, CardResult.absent, CardResult.absent, CardResult.absent, true,
        t2⟩]).2 = [90, 0] := by
  have h03 : updateAlarm t0
      ⟨mo, GateState.idle, gi, ge, ts, at0, lt, ls, false, locs, lsb⟩ =
      (⟨mo, GateState.idle, gi, ge, ts, at0, lt, ls, false, locs, lsb⟩, []) := by
    simp [updateAlarm]
  have h04 : pollGatePhase
      ⟨none, CardResult.card (uidOf i), CardResult.absent, CardResult.absent,
       true, t0⟩
      ⟨mo, GateState.idle, gi, ge, ts, at0, lt, ls, false, locs, lsb⟩ =
      (⟨mo, GateState.waitingApproval, Int.ofNat i, t0, ts, at0, lt, ls,
        false, locs.set i Loc.atGate, lsb⟩,
       [Obs.poll Reader.gateR, Obs.antennaOn Reader.gateR,
        Obs.piccHalt Reader.gateR, Obs.stopCrypto Reader.gateR,
        Obs.antennaOff Reader.gateR, Obs.lcdShow "EXIT REQUEST:" "student",
        Obs.scanEvt (Int.ofNat i), Obs.flashBlue 500, Obs.beepShort 1,
        Obs.statusEvt (countAt Loc.classroom (locs.set i Loc.atGate))
          (countAt Loc.hostel (locs.set i Loc.atGate))
          (countAt Loc.left (locs.set i Loc.atGate))
          (countAt Loc.sneaked (locs.set i Loc.atGate)) mo]) := by
    simp [pollGatePhase, readCardM, isAdmin_uidOf i hi,
      findStudent_uidOf i hi, handleGateDetection, setLocI, sendStatusObs]
  have h05 : pollZonePhase
      ⟨none, CardResult.card (uidOf i), CardResult.absent, CardResult.absent,
       true, t0⟩
      ⟨mo, GateState.waitingApproval, Int.ofNat i, t0, ts, at0, lt, ls,
       false, locs.set i Loc.atGate, lsb⟩ =
      (⟨mo, GateState.waitingApproval, Int.ofNat i, t0, ts, at0, lt, ls,
        false, locs.set i Loc.atGate, lsb⟩, []) := by
    simp [pollZonePhase]
  have hc0 := cycle_spec
    ⟨none, CardResult.card (uidOf i), CardResult.absent, CardResult.absent,
     true, t0⟩
    ⟨mo, GateState.idle, gi, ge, ts, at0, lt, ls, false, locs, lsb⟩
    _ _ _ _ _ _ _ _ _ _ _ _ rfl rfl h03 h04 h05 (periodicStatus_eq t0 _)
  have hrunC := run3_eta
    ⟨mo, GateState.idle, gi, ge, ts, at0, lt, ls, false, locs, lsb⟩
    ⟨none, CardResult.card (uidOf i), CardResult.absent, CardResult.absent,
     true, t0⟩
    ⟨none, CardResult.absent, CardResult.card adminUID, CardResult.absent,
     true, t1⟩
    ⟨none, CardResult.absent, CardResult.absent, CardResult.absent, true, t2⟩
  have hrunH := run3_eta
    ⟨mo, GateState.idle, gi, ge, ts, at0, lt, ls, false, locs, lsb⟩
    ⟨none, CardResult.card (uidOf i), CardResult.absent, CardResult.absent,
     true, t0⟩
    ⟨none, CardResult.absent, CardResult.absent, CardResult.card adminUID,
     true, t1⟩
    ⟨none, CardResult.absent, CardResult.absent, CardResult.absent, true, t2⟩
  simp only [hc0] at hrunC hrunH
  obtain ⟨x0, hx0⟩ : ∃ x, (periodicStatus t0
      ⟨mo, GateState.waitingApproval, Int.ofNat i, t0, ts, at0, lt, ls,
       false, locs.set i Loc.atGate, lsb⟩).1.lastStatusBroadcast = x :=
    ⟨_, rfl⟩
  rw [hx0] at hrunC hrunH
  have h13 : updateAlarm t1
      ⟨mo, GateState.approved, Int.ofNat i, t1, ts, at0, lt, ls, false,
       (locs.set i Loc.atGate).set i Loc.left, x0⟩ =
      (⟨mo, GateState.approved, Int.ofNat i, t1, ts, at0, lt, ls, false,
        (locs.set i Loc.atGate).set i Loc.left, x0⟩, []) := by
    simp [updateAlarm]
  have h12c : updateGateStateMachine
      ⟨none, CardResult.absent, CardResult.card adminUID, CardResult.absent,
       true, t1⟩
      ⟨mo, GateState.waitingApproval, Int.ofNat i, t0, ts, at0, lt, ls,
       false, locs.set i Loc.atGate, x0⟩ =
      (⟨mo, GateState.approved, Int.ofNat i, t1, ts, at0, lt, ls, false,
        (locs.set i Loc.atGate).set i Loc.left, x0⟩,
       [Obs.poll Reader.classroomR, Obs.antennaOn Reader.classroomR,
        Obs.piccHalt Reader.classroomR, Obs.stopCrypto Reader.classroomR,
        Obs.antennaOff Reader.classroomR, Obs.servo 90, Obs.flashBlue 2000,
        Obs.beepShort 2, Obs.lcdShow "APPROVED!" "student",
        Obs.approvedEvt (Int.ofNat i),
        Obs.statusEvt
          (countAt Loc.classroom ((locs.set i Loc.atGate).set i Loc.left))
          (countAt Loc.hostel ((locs.set i Loc.atGate).set i Loc.left))
          (countAt Loc.left ((locs.set i Loc.atGate).set i Loc.left))
          (countAt Loc.sneaked ((locs.set i Loc.atGate).set i Loc.left))
          mo]) := by
    simp [updateGateStateMachine, updWaitClass, gateApproved, setLocI,
      sendStatusObs, readCardM, isAdmin_adminUID]
  have h12h : updateGateStateMachine
      ⟨none, CardResult.absent, CardResult.absent, CardResult.card adminUID,
       true, t1⟩
      ⟨mo, GateState.waitingApproval, Int.ofNat i, t0, ts, at0, lt, ls,
       false, locs.set i Loc.atGate, x0⟩ =
      (⟨mo, GateState.approved, Int.ofNat i, t1, ts, at0, lt, ls, false,
        (locs.set i Loc.atGate).set i Loc.left, x0⟩,
       [Obs.poll Reader.classroomR, Obs.antennaOn Reader.classroomR,
        Obs.antennaOff Reader.classroomR, Obs.poll Reader.hostelR,
        Obs.antennaOn Reader.hostelR, Obs.piccHalt Reader.hostelR,
        Obs.stopCrypto Reader.hostelR, Obs.antennaOff Reader.hostelR,
        Obs.servo 90, Obs.flashBlue 2000, Obs.beepShort 2,
        Obs.lcdShow "APPROVED!" "student", Obs.approvedEvt (Int.ofNat i),
        Obs.statusEvt
          (countAt Loc.classroom ((locs.set i Loc.atGate).set i Loc.left))
          (countAt Loc.hostel ((locs.set i Loc.atGate).set i Loc.left))
          (countAt Loc.left ((locs.set i Loc.atGate).set i Loc.left))
          (countAt Loc.sneaked ((locs.set i Loc.atGate).set i Loc.left))
          mo]) := by
    simp [updateGateStateMachine, updWaitClass, updWaitHostel, gateApproved,
      setLocI, sendStatusObs, readCardM, isAdmin_adminUID]
  have h14c : pollGatePhase
      ⟨none, CardResult.absent, CardResult.card adminUID, CardResult.absent,
       true, t1⟩
      ⟨mo, GateState.approved, Int.ofNat i, t1, ts, at0, lt, ls, false,
       (locs.set i Loc.atGate).set i Loc.left, x0⟩ =
      (⟨mo, GateState.approved, Int.ofNat i, t1, ts, at0, lt, ls, false,
        (locs.set i Loc.atGate).set i Loc.left, x0⟩, []) := by
    simp [pollGatePhase]
  have h15c : pollZonePhase
      ⟨none, CardResult.absent, CardResult.card adminUID, CardResult.absent,
       true, t1⟩
      ⟨mo, GateState.approved, Int.ofNat i, t1, ts, at0, lt, ls, false,
       (locs.set i Loc.atGate).set i Loc.left, x0⟩ =
      (⟨mo, GateState.approved, Int.ofNat i, t1, ts, at0, lt, ls, false,
        (locs.set i Loc.atGate).set i Loc.left, x0⟩, []) := by
    simp [pollZonePhase]
  have h14h : pollGatePhase
      ⟨none, CardResult.absent, CardResult.absent, CardResult.card adminUID,
       true, t1⟩
      ⟨mo, GateState.approved, Int.ofNat i, t1, ts, at0, lt, ls, false,
       (locs.set i Loc.atGate).set i Loc.left, x0⟩ =
      (⟨mo, GateState.approved, Int.ofNat i, t1, ts, at0, lt, ls, false,
        (locs.set i Loc.atGate).set i Loc.left, x0⟩, []) := by
    simp [pollGatePhase]
  have h15h : pollZonePhase
      ⟨none, CardResult.absent, CardResult.absent, CardResult.card adminUID,
       true, t1⟩
      ⟨mo, GateState.approved, Int.ofNat i, t1, ts, at0, lt, ls, false,
       (locs.set i Loc.atGate).set i Loc.left, x0⟩ =
      (⟨mo, GateState.approved, Int.ofNat i, t1, ts, at0, lt, ls, false,
        (locs.set i Loc.atGate).set i Loc.left, x0⟩, []) := by
    simp [pollZonePhase]
  have hc1c := cycle_spec
    ⟨none, CardResult.absent, CardResult.card adminUID, CardResult.absent,
     true, t1⟩
    ⟨mo, GateState.waitingApproval, Int.ofNat i, t0, ts, at0, lt, ls, false,
     locs.set i Loc.atGate, x0⟩
    _ _ _ _ _ _ _ _ _ _ _ _ rfl h12c h13 h14c h15c (periodicStatus_eq t1 _)
  have hc1h := cycle_spec
    ⟨none, CardResult.absent, CardResult.absent, CardResult.card adminUID,
     true, t1⟩
    ⟨mo, GateState.waitingApproval, Int.ofNat i, t0, ts, at0, lt, ls, false,
     locs.set i Loc.atGate, x0⟩
    _ _ _ _ _ _ _ _ _ _ _ _ rfl h12h h13 h14h h15h (periodicStatus_eq t1 _)
  simp only [hc1c] at hrunC
  simp only [hc1h] at hrunH
  obtain ⟨x1, hx1⟩ : ∃ x, (periodicStatus t1
      ⟨mo, GateState.approved, Int.ofNat i, t1, ts, at0, lt, ls, false,
       (locs.set i Loc.atGate).set i Loc.left, x0⟩).1.lastStatusBroadcast =
      x := ⟨_, rfl⟩
  rw [hx1] at hrunC hrunH
  have h22 : updateGateStateMachine
      ⟨none, CardResult.absent, CardResult.absent, CardResult.absent, true,
       t2⟩
      ⟨mo, GateState.approved, Int.ofNat i, t1, ts, at0, lt, ls, false,
       (locs.set i Loc.atGate).set i Loc.left, x1⟩ =
      (⟨mo, GateState.idle, -1, t1, ts, at0, lt, ls, false,
        (locs.set i Loc.atGate).set i Loc.left, x1⟩,
       [Obs.servo 0, Obs.lcdShow "Gate closed" "System ready",
        Obs.statusEvt
          (countAt Loc.classroom ((locs.set i Loc.atGate).set i Loc.left))
          (countAt Loc.hostel ((locs.set i Loc.atGate).set i Loc.left))
          (countAt Loc.left ((locs.set i Loc.atGate).set i Loc.left))
          (countAt Loc.sneaked ((locs.set i Loc.atGate).set i Loc.left))
          mo]) := by
    simp [updateGateStateMachine, updApprovedCase, sendStatusObs, h12]
  have h23 : updateAlarm t2
      ⟨mo, GateState.idle, -1, t1, ts, at0, lt, ls, false,
       (locs.set i Loc.atGate).set i Loc.left, x1⟩ =
      (⟨mo, GateState.idle, -1, t1, ts, at0, lt, ls, false,
        (locs.set i Loc.atGate).set i Loc.left, x1⟩, []) := by
    simp [updateAlarm]
  have h24 : pollGatePhase
      ⟨none, CardResult.absent, CardResult.absent, CardResult.absent, true,
       t2⟩
      ⟨mo, GateState.idle, -1, t1, ts, at0, lt, ls, false,
       (locs.set i Loc.atGate).set i Loc.left, x1⟩ =
      (⟨mo, GateState.idle, -1, t1, ts, at0, lt, ls, false,
        (locs.set i Loc.atGate).set i Loc.left, x1⟩,
       [Obs.poll Reader.gateR, Obs.antennaOn Reader.gateR,
        Obs.antennaOff Reader.gateR]) := by
    simp [pollGatePhase, readCardM]
  have h25 : pollZonePhase
      ⟨none, CardResult.absent, CardResult.absent, CardResult.absent, true,
       t2⟩
      ⟨mo, GateState.idle, -1, t1, ts, at0, lt, ls, false,
       (locs.set i Loc.atGate).set i Loc.left, x1⟩ =
      (⟨mo, GateState.idle, -1, t1, ts, at0, lt, ls, false,
        (locs.set i Loc.atGate).set i Loc.left, x1⟩,
       [Obs.poll Reader.classroomR, Obs.antennaOn Reader.classroomR,
        Obs.antennaOff Reader.classroomR, Obs.poll Reader.hostelR,
        Obs.antennaOn Reader.hostelR, Obs.antennaOff Reader.hostelR]) := by
    simp [pollZonePhase, pollZoneHostel, readCardM]
  have hc2 := cycle_spec
    ⟨none, CardResult.absent, CardResult.absent, CardResult.absent, true, t2⟩
    ⟨mo, GateState.approved, Int.ofNat i, t1, ts, at0, lt, ls, false,
     (locs.set i Loc.atGate).set i Loc.left, x1⟩
    _ _ _ _ _ _ _ _ _ _ _ _ rfl h22 h23 h24 h25 (periodicStatus_eq t2 _)
  simp only [hc2] at hrunC hrunH
  refine ⟨?_, ?_, ?_, ?_, ?_, ?_, ?_, ?_⟩
  · rw [hrunC]
  · rw [hrunC]
    exact getLoc_set_self _ i Loc.left (by simpa [hlen] using hi)
  · rw [hrunC]
    simp [countApproved, isApprovedObs, List.countP_append,
      countP_periodicStatus isApprovedObs (fun _ _ _ _ _ => rfl)]
  · rw [hrunC]
    simp [servoCmds, List.filterMap_append, List.filterMap,
      filterMap_periodicStatus
        (fun o => match o with | Obs.servo a => some a | _ => none)
        (fun _ _ _ _ _ => rfl)]
  · rw [hrunH]
  · rw [hrunH]
    exact getLoc_set_self _ i Loc.left (by simpa [hlen] using hi)
  · rw [hrunH]
    simp [countApproved, isApprovedObs, List.countP_append,
      countP_periodicStatus isApprovedObs (fun _ _ _ _ _ => rfl)]
  · rw [hrunH]
    simp [servoCmds, List.filterMap_append, List.filterMap,
      filterMap_periodicStatus
        (fun o => match o with | Obs.servo a => some a | _ => none)
        (fun _ _ _ _ _ => rfl)]

end GuardianTrack

namespace GuardianTrack

/-- Witness for C2: student 0 taps at 1 s, admin approves at 3 s, gate
closes by 9 s, for both the Classroom and the Hostel approval reader. -/
theorem C2_gate_approval_roundtrip_witness :
    (run ⟨Mode.mfree, GateState.idle, -1, 0, 0, 0, 0, false, false,
       [Loc.classroom, Loc.unknown, Loc.unknown, Loc.unknown, Loc.unknown],
       0⟩
      [⟨none, CardResult.card (uidOf 0), CardResult.absent, CardResult.absent,
        true, 1000⟩,
       ⟨none, CardResult.absent, CardResult.card adminUID, CardResult.absent,
        true, 3000⟩,
       ⟨none, CardResult.absent, CardResult.absent, CardResult.absent, true,
        9000⟩]).1.gateState = GateState.idle ∧
    getLoc (run ⟨Mode.mfree, GateState.idle, -1, 0, 0, 0, 0, false, false,
       [Loc.classroom, Loc.unknown, Loc.unknown, Loc.unknown, Loc.unknown],
       0⟩
      [⟨none, CardResult.card (uidOf 0), CardResult.absent, CardResult.absent,
        true, 1000⟩,
       ⟨none, CardResult.absent, CardResult.card adminUID, CardResult.absent,
        true, 3000⟩,
       ⟨none, CardResult.absent, CardResult.absent, CardResult.absent, true,
        9000⟩]).1.locations 0 = Loc.left ∧
    countApproved (run ⟨Mode.mfree, GateState.idle, -1, 0, 0, 0, 0, false,
       false,
       [Loc.classroom, Loc.unknown, Loc.unknown, Loc.unknown, Loc.unknown],
       0⟩
      [⟨none, CardResult.card (uidOf 0), CardResult.absent, CardResult.absent,
        true, 1000⟩,
       ⟨none, CardResult.absent, CardResult.card adminUID, CardResult.absent,
        true, 3000⟩,
       ⟨none, CardResult.absent, CardResult.absent, CardResult.absent, true,
        9000⟩]).2 = 1 ∧
    servoCmds (run ⟨Mode.mfree, GateState.idle, -1, 0, 0, 0, 0, false, false,
       [Loc.classroom, Loc.unknown, Loc.unknown, Loc.unknown, Loc.unknown],
       0⟩
      [⟨none, CardResult.card (uidOf 0), CardResult.absent, CardResult.absent,
        true, 1000⟩,
       ⟨none, CardResult.absent, CardResult.card adminUID, CardResult.absent,
        true, 3000⟩,
       ⟨none, CardResult.absent, CardResult.absent, CardResult.absent, true,
        9000⟩]).2 = [90, 0] ∧
    (run ⟨Mode.mfree, GateState.idle, -1, 0, 0, 0, 0, false, false,
       [Loc.classroom, Loc.unknown, Loc.unknown, Loc.unknown, Loc.unknown],
       0⟩
      [⟨none, CardResult.card (uidOf 0), CardResult.absent, CardResult.absent,
        true, 1000⟩,
       ⟨none, CardResult.absent, CardResult.absent, CardResult.card adminUID,
        true, 3000⟩,
       ⟨none, CardResult.absent, CardResult.absent, CardResult.absent, true,
        9000⟩]).1.gateState = GateState.idle ∧
    getLoc (run ⟨Mode.mfree, GateState.idle, -1, 0, 0, 0, 0, false, false,
       [Loc.classroom, Loc.unknown, Loc.unknown, Loc.unknown, Loc.unknown],
       0⟩
      [⟨none, CardResult.card (uidOf 0), CardResult.absent, CardResult.absent,
        true, 1000⟩,
       ⟨none, CardResult.absent, CardResult.absent, CardResult.card adminUID,
        true, 3000⟩,
       ⟨none, CardResult.absent, CardResult.absent, CardResult.absent, true,
        9000⟩]).1.locations 0 = Loc.left ∧
    countApproved (run ⟨Mode.mfree, GateState.idle, -1, 0, 0, 0, 0, false,
       false,
       [Loc.classroom, Loc.unknown, Loc.unknown, Loc.unknown, Loc.unknown],
       0⟩
      [⟨none, CardResult.card (uidOf 0), CardResult.absent, CardResult.absent,
        true, 1000⟩,
       ⟨none, CardResult.absent, CardResult.absent, CardResult.card adminUID,
        true, 3000⟩,
       ⟨none, CardResult.absent, CardResult.absent, CardResult.absent, true,
        9000⟩]).2 = 1 ∧
    servoCmds (run ⟨Mode.mfree, GateState.idle, -1, 0, 0, 0, 0, false, false,
       [Loc.classroom, Loc.unknown, Loc.unknown, Loc.unknown, Loc.unknown],
       0⟩
      [⟨none, CardResult.card (uidOf 0), CardResult.absent, CardResult.absent,
        true, 1000⟩,
       ⟨none, CardResult.absent, CardResult.absent, CardResult.card adminUID,
        true, 3000⟩,
       ⟨none, CardResult.absent, CardResult.absent, CardResult.absent, true,
        9000⟩]).2 = [90, 0] :=
  C2_gate_approval_roundtrip Mode.mfree (-1) 0 0 0 0 0 false
    [Loc.classroom, Loc.unknown, Loc.unknown, Loc.unknown, Loc.unknown] 0
    1000 3000 9000 (by decide) (by decide) (by decide) (by decide)

end GuardianTrack
